import Mathlib

/-! ILI9328 TFT driver (drivers/lcd/tft/hw/ILI9328.c)

A shallow embedding of the driver at the level of bus transactions.  The C
globals (`lcdOrientation`) and the outside world (what has been sent over the
8-bit bus, what the panel answers to a read) are one explicit `Driver` value
that every function takes and returns.  `uint16_t` values are natural numbers,
`int`/`int16_t` arithmetic is done in `Int` and converted back explicitly
where the C code converts.  Loops carry a fuel argument and return `none`
when it runs out.
-/

namespace ILI9328

/-! ## Types declared in headers -/

/-- Modelled from the spec: `lcdOrientation_t` is declared in a header that is
not among the sources; the spec gives it as the enumeration
{Portrait, Landscape}.  The enumerator names are the ones ILI9328.c uses. -/
inductive lcdOrientation_t where
  | LCD_ORIENTATION_PORTRAIT
  | LCD_ORIENTATION_LANDSCAPE
  deriving DecidableEq, Repr

/-- Modelled from the spec: `lcdProperties_t` is declared in a header that is
not among the sources.  ILI9328.c reads the fields `width` and `height` and
initialises the structure with `{ 240, 320, TRUE, TRUE, TRUE }`; the spec gives
physical width and height followed by capability flags. -/
structure lcdProperties_t where
  width : Nat
  height : Nat
  flag0 : Bool
  flag1 : Bool
  flag2 : Bool
  deriving DecidableEq, Repr

/-- Modelled from the spec: the `ILI9328_COMMANDS_*` register addresses are
declared in ILI9328.h, which is not among the sources, so their numeric codes
are unknown.  A command is recorded by the name under which ILI9328.c issues
it (prefix `ILI9328_COMMANDS_` dropped). -/
inductive Command where
  | DRIVERCODEREAD
  | DRIVEROUTPUTCONTROL1
  | ENTRYMODE
  | HORIZONTALGRAMADDRESSSET
  | VERTICALGRAMADDRESSSET
  | WRITEDATATOGRAM
  | HORIZONTALADDRESSSTARTPOSITION
  | HORIZONTALADDRESSENDPOSITION
  | VERTICALADDRESSSTARTPOSITION
  | VERTICALADDRESSENDPOSITION
  | VERTICALSCROLLCONTROL
  deriving DecidableEq, Repr

/-- One transaction on the multiplexed bus: the three primitives
`ili9328WriteCmd`, `ili9328WriteData`, `ili9328ReadData`. -/
inductive BusOp where
  | writeCmd (command : Command)
  | writeData (data : Nat)
  | readData
  deriving DecidableEq, Repr

/-- The driver's global `lcdOrientation` together with its environment:
`trace` is every bus transaction issued so far (oldest first), `input k` is the
word the panel returns to the `k`-th read transaction and `reads` counts the
read transactions done so far. -/
structure Driver where
  lcdOrientation : lcdOrientation_t
  trace : List BusOp
  input : Nat → Nat
  reads : Nat

open lcdOrientation_t Command

/-! ## Integer conversions -/

/-- Conversion of an `int` to `uint16_t`. -/
def toUInt16 (z : Int) : Nat := (z % 65536).toNat

/-- Conversion of an `int` to `int16_t` (two's complement wrap). -/
def toInt16 (z : Int) : Int := (z + 32768) % 65536 - 32768

/-! ## Globals -/

/-- The global `static lcdProperties_t ili9328Properties = { 240, 320, TRUE, TRUE, TRUE };` -/
def ili9328Properties : lcdProperties_t := ⟨240, 320, true, true, true⟩

/-- The state before any driver call: `lcdOrientation` has its static
initialiser `LCD_ORIENTATION_PORTRAIT` and nothing has crossed the bus. -/
def initial (input : Nat → Nat) : Driver :=
  { lcdOrientation := LCD_ORIENTATION_PORTRAIT, trace := [], input := input, reads := 0 }

/-! ## Private methods -/

/-- Source function `ili9328WriteCmd`: one command transaction.  The control-line
and strobe sequence inside the transaction is below the level of this model. -/
def ili9328WriteCmd (command : Command) (s : Driver) : Driver :=
  { s with trace := s.trace ++ [BusOp.writeCmd command] }

/-- Source function `ili9328WriteData`: one data-write transaction of a
`uint16_t`. -/
def ili9328WriteData (data : Nat) (s : Driver) : Driver :=
  { s with trace := s.trace ++ [BusOp.writeData data] }

/-- Source function `ili9328ReadData`: one read transaction; returns the
`uint16_t` assembled from what the panel supplies, here the next word of
`input`. -/
def ili9328ReadData (s : Driver) : Nat × Driver :=
  (s.input s.reads % 65536,
   { s with trace := s.trace ++ [BusOp.readData], reads := s.reads + 1 })

/-- Source function `ili9328Command`: command followed by data. -/
def ili9328Command (command : Command) (data : Nat) (s : Driver) : Driver :=
  ili9328WriteData data (ili9328WriteCmd command s)

/-- The local variables `(al, ah)` of `ili9328SetCursor` after its
`if`/`else`. -/
def ili9328SetCursor_al_ah (o : lcdOrientation_t) (x y : Nat) : Nat × Nat :=
  if o = LCD_ORIENTATION_LANDSCAPE then (y, x) else (x, y)

/-- Source function `ili9328SetCursor`; the `else` branch is the Portrait one. -/
def ili9328SetCursor (x y : Nat) (s : Driver) : Driver :=
  let p := ili9328SetCursor_al_ah s.lcdOrientation x y
  let s := ili9328Command HORIZONTALGRAMADDRESSSET p.1 s
  ili9328Command VERTICALGRAMADDRESSSET p.2 s

/-- Source function `ili9328Home`. -/
def ili9328Home (s : Driver) : Driver :=
  ili9328WriteCmd WRITEDATATOGRAM (ili9328SetCursor 0 0 s)

/-- Source function `ili9328SetWindow`. -/
def ili9328SetWindow (x0 y0 x1 y1 : Nat) (s : Driver) : Driver :=
  let s := ili9328Command HORIZONTALADDRESSSTARTPOSITION x0 s
  let s := ili9328Command HORIZONTALADDRESSENDPOSITION x1 s
  let s := ili9328Command VERTICALADDRESSSTARTPOSITION y0 s
  let s := ili9328Command VERTICALADDRESSENDPOSITION y1 s
  ili9328SetCursor x0 y0 s

/-! ## Public methods -/

/-- Source function `lcdGetWidth`; the `default:` label of the C `switch` sits on
the Landscape branch. -/
def lcdGetWidth (s : Driver) : Nat :=
  match s.lcdOrientation with
  | LCD_ORIENTATION_PORTRAIT => ili9328Properties.width
  | LCD_ORIENTATION_LANDSCAPE => ili9328Properties.height

/-- Source function `lcdGetHeight`; the `default:` label of the C `switch` sits on
the Landscape branch. -/
def lcdGetHeight (s : Driver) : Nat :=
  match s.lcdOrientation with
  | LCD_ORIENTATION_PORTRAIT => ili9328Properties.height
  | LCD_ORIENTATION_LANDSCAPE => ili9328Properties.width

/-- Source function `lcdSetOrientation`; the initial values of the locals
`entryMode` and `outputControl` are those the Portrait case assigns again. -/
def lcdSetOrientation (orientation : lcdOrientation_t) (s : Driver) : Driver :=
  let regs : Nat × Nat :=
    match orientation with
    | LCD_ORIENTATION_PORTRAIT => (0x1030, 0x0100)
    | LCD_ORIENTATION_LANDSCAPE => (0x1028, 0x0000)
  let entryMode := regs.1
  let outputControl := regs.2
  let s := ili9328Command ENTRYMODE entryMode s
  let s := ili9328Command DRIVEROUTPUTCONTROL1 outputControl s
  let s := { s with lcdOrientation := orientation }
  ili9328SetCursor 0 0 s

/-- The `for` loop of `lcdDrawHLine`: `pixels` is a `uint16_t` counter, the
bound `x1 - x0 + 1` is computed in `int`. -/
def lcdDrawHLine_loop (x0 x1 color : Nat) : Nat → Nat → Driver → Option Driver
  | 0, _, _ => none
  | fuel + 1, pixels, s =>
    if (pixels : Int) < (x1 : Int) - (x0 : Int) + 1 then
      lcdDrawHLine_loop x0 x1 color fuel ((pixels + 1) % 65536) (ili9328WriteData color s)
    else
      some s

/-- Source function `lcdDrawHLine`. -/
def lcdDrawHLine (fuel : Nat) (x0 x1 y color : Nat) (s : Driver) : Option Driver :=
  -- Switch x1 and x0
  let p : Nat × Nat := if x1 < x0 then (x1, x0) else (x0, x1)
  let x0 := p.1
  let x1 := p.2
  -- Check limits
  let x1 := if x1 ≥ lcdGetWidth s then toUInt16 ((lcdGetWidth s : Int) - 1) else x1
  let x0 := if x0 ≥ lcdGetWidth s then toUInt16 ((lcdGetWidth s : Int) - 1) else x0
  let s := ili9328SetCursor x0 y s
  let s := ili9328WriteCmd WRITEDATATOGRAM s
  lcdDrawHLine_loop x0 x1 color fuel 0 s

/-- Source function `lcdGetPixel`. -/
def lcdGetPixel (x y : Nat) (s : Driver) : Nat × Driver :=
  let s := ili9328SetCursor x y s
  let s := ili9328WriteCmd WRITEDATATOGRAM s
  let preFetch := ili9328ReadData s
  let s := preFetch.2
  -- Eeek ... why does this need to be done twice for a proper value?!?
  let s := ili9328SetCursor x y s
  let s := ili9328WriteCmd WRITEDATATOGRAM s
  ili9328ReadData s

/-- First `while` loop of `lcdScroll`: `while (y < 0) y += 320;` on an
`int16_t`. -/
def lcdScroll_loop1 : Nat → Int → Option Int
  | 0, _ => none
  | fuel + 1, y => if y < 0 then lcdScroll_loop1 fuel (toInt16 (y + 320)) else some y

/-- Second `while` loop of `lcdScroll`: `while (y >= 320) y -= 320;` on an
`int16_t`. -/
def lcdScroll_loop2 : Nat → Int → Option Int
  | 0, _ => none
  | fuel + 1, y => if y ≥ 320 then lcdScroll_loop2 fuel (toInt16 (y - 320)) else some y

/-- Source function `lcdScroll`; `pixels` is an `int16_t`, and `y` is converted to `uint16_t`
when it is handed to `ili9328WriteData`. -/
def lcdScroll (fuel : Nat) (pixels : Int) (fillColor : Nat) (s : Driver) : Option Driver :=
  match lcdScroll_loop1 fuel pixels with
  | none => none
  | some y =>
    match lcdScroll_loop2 fuel y with
    | none => none
    | some y =>
      let s := ili9328WriteCmd VERTICALSCROLLCONTROL s
      some (ili9328WriteData (toUInt16 y) s)

/-- The `for` loop of `lcdFillRGB`: `i` is an `unsigned int` (32 bits), `pixels`
a `uint32_t`. -/
def lcdFillRGB_loop (data pixels : Nat) : Nat → Nat → Driver → Option Driver
  | 0, _, _ => none
  | fuel + 1, i, s =>
    if i < pixels then
      lcdFillRGB_loop data pixels fuel ((i + 1) % 4294967296) (ili9328WriteData data s)
    else
      some s

/-- Source function `lcdFillRGB`. -/
def lcdFillRGB (fuel : Nat) (data : Nat) (s : Driver) : Option Driver :=
  let s := ili9328Home s
  let pixels := 320 * 240
  lcdFillRGB_loop data pixels fuel 0 s

/-- Source function `lcdDrawPixel`. -/
def lcdDrawPixel (x y color : Nat) (s : Driver) : Driver :=
  let s := ili9328SetCursor x y s
  let s := ili9328WriteCmd WRITEDATATOGRAM s
  ili9328WriteData color s

/-- The `do ... while (i<len)` loop of `lcdDrawPixels`: `i` and `len` are
`uint32_t`; `data k` is the `uint16_t` stored at `data[k]`. -/
def lcdDrawPixels_loop (data : Nat → Nat) (len : Nat) : Nat → Nat → Driver → Option Driver
  | 0, _, _ => none
  | fuel + 1, i, s =>
    let s := ili9328WriteData (data i) s
    let i := (i + 1) % 4294967296
    if i < len then lcdDrawPixels_loop data len fuel i s else some s

/-- Source function `lcdDrawPixels`; the pointer argument is the memory it
points to, `data k` being `data[k]`. -/
def lcdDrawPixels (fuel : Nat) (x y : Nat) (data : Nat → Nat) (len : Nat) (s : Driver) :
    Option Driver :=
  let i := 0
  let s := ili9328SetCursor x y s
  let s := ili9328WriteCmd WRITEDATATOGRAM s
  lcdDrawPixels_loop data len fuel i s

/-- The argument of the first `lcdSetOrientation` call in `lcdDrawVLine`:
`orientation == LCD_ORIENTATION_PORTRAIT ? LCD_ORIENTATION_LANDSCAPE : LCD_ORIENTATION_PORTRAIT`. -/
def lcdDrawVLine_switched (orientation : lcdOrientation_t) : lcdOrientation_t :=
  if orientation = LCD_ORIENTATION_PORTRAIT then LCD_ORIENTATION_LANDSCAPE
  else LCD_ORIENTATION_PORTRAIT

/-- Source function `lcdDrawVLine`; `lcdGetHeight() - (x + 1)` is computed in
`int` and converted to the `uint16_t` parameter of `lcdDrawHLine`. -/
def lcdDrawVLine (fuel : Nat) (x y0 y1 color : Nat) (s : Driver) : Option Driver :=
  let orientation := s.lcdOrientation
  -- Switch orientation
  let s := lcdSetOrientation (lcdDrawVLine_switched orientation) s
  -- Draw horizontal line like usual
  match lcdDrawHLine fuel y0 y1 (toUInt16 ((lcdGetHeight s : Int) - ((x : Int) + 1))) color s with
  | none => none
  | some s =>
    -- Switch orientation back
    some (lcdSetOrientation orientation s)

/-! ## Vocabulary for stating properties -/

/-- The four window-bound registers, the ones `ili9328SetWindow` programs. -/
def Command.isWindowBound : Command → Bool
  | HORIZONTALADDRESSSTARTPOSITION => true
  | HORIZONTALADDRESSENDPOSITION => true
  | VERTICALADDRESSSTARTPOSITION => true
  | VERTICALADDRESSENDPOSITION => true
  | _ => false

/-- Whether a bus transaction selects a window-bound register. -/
def BusOp.selectsWindowBound : BusOp → Bool
  | BusOp.writeCmd c => c.isWindowBound
  | _ => false

/-- Modelled from the spec: the colour RED of the scenarios.  The header that
defines the colour constants is not among the sources; the driver's palette is
16-bit RGB565, in which pure red is 0xF800. -/
def COLOR_RED : Nat := 0xF800

/-- A panel that answers 0 to every read. -/
def zeroInput : Nat → Nat := fun _ => 0

/-- Pixel memory for examples: `data[k] = 100 + k`. -/
def samplePixels : Nat → Nat := fun k => 100 + k

/-- Whether a bus transaction is a data write. -/
def BusOp.isWriteData : BusOp → Bool
  | BusOp.writeData _ => true
  | _ => false

/-- What follows the first write-data-to-GRAM command in a list of bus
transactions (empty when there is no such command). -/
def afterGram (l : List BusOp) : List BusOp :=
  (l.dropWhile (fun op => op != BusOp.writeCmd WRITEDATATOGRAM)).drop 1

end ILI9328

/-! ## Bus primitives at pin level -/

namespace ILI9328.Pin

/-- State of the write-enable strobe being started: levels of chip-select and
command/data select and the byte on the eight data lines at the falling edge
of the write-enable line. -/
structure WriteStrobe where
  CS : Bool
  CD : Bool
  byte : Nat
  deriving DecidableEq, Repr

/-- State of the read-enable strobe being started: level of chip-select and
direction of the data lines at the falling edge of the read-enable line. -/
structure ReadStrobe where
  CS : Bool
  dataIsOutput : Bool
  deriving DecidableEq, Repr

/-- Modelled from the spec: the pin macros of ILI9328.h (not among the sources)
act on four control lines (chip-select, command/data select, read-enable,
write-enable; `true` is the high level) and on one 8-bit data bus whose
direction the driver toggles.  `data` is the byte driven on the eight data
lines, `writeStrobes` and `readStrobes` log the strobes so far, `port k` is
the value read from the data port register at the `k`-th read of it and
`samples` counts those reads. -/
structure Lines where
  CS : Bool
  CD : Bool
  RD : Bool
  WR : Bool
  data : Nat
  dataIsOutput : Bool
  writeStrobes : List WriteStrobe
  readStrobes : List ReadStrobe
  port : Nat → Nat
  samples : Nat

/-- Modelled from the spec: macro `CLR_CS` of ILI9328.h, chip-select low. -/
def CLR_CS (p : Lines) : Lines := { p with CS := false }

/-- Modelled from the spec: macro `SET_CS` of ILI9328.h, chip-select high
(deasserted). -/
def SET_CS (p : Lines) : Lines := { p with CS := true }

/-- Modelled from the spec: macro `CLR_CD` of ILI9328.h, command mode. -/
def CLR_CD (p : Lines) : Lines := { p with CD := false }

/-- Modelled from the spec: macro `SET_CD` of ILI9328.h, data mode. -/
def SET_CD (p : Lines) : Lines := { p with CD := true }

/-- Modelled from the spec: macro `CLR_RD` of ILI9328.h, read-enable low; a
falling edge starts a read strobe. -/
def CLR_RD (p : Lines) : Lines :=
  { p with
    RD := false
    readStrobes :=
      if p.RD then p.readStrobes ++ [{ CS := p.CS, dataIsOutput := p.dataIsOutput }]
      else p.readStrobes }

/-- Modelled from the spec: macro `SET_RD` of ILI9328.h, read-enable high. -/
def SET_RD (p : Lines) : Lines := { p with RD := true }

/-- Modelled from the spec: macro `CLR_WR` of ILI9328.h, write-enable low; a
falling edge starts a write strobe. -/
def CLR_WR (p : Lines) : Lines :=
  { p with
    WR := false
    writeStrobes :=
      if p.WR then p.writeStrobes ++ [{ CS := p.CS, CD := p.CD, byte := p.data }]
      else p.writeStrobes }

/-- Modelled from the spec: macro `SET_WR` of ILI9328.h, write-enable high. -/
def SET_WR (p : Lines) : Lines := { p with WR := true }

/-- Modelled from the spec: macro `CLR_CS_CD_SET_RD_WR` of ILI9328.h; the comment
in `ili9328WriteCmd` gives it as "CLR_CS; CLR_CD; SET_RD; SET_WR;". -/
def CLR_CS_CD_SET_RD_WR (p : Lines) : Lines := SET_WR (SET_RD (CLR_CD (CLR_CS p)))

/-- Modelled from the spec: macro `CLR_CS_SET_CD_RD_WR` of ILI9328.h; the comment
in `ili9328WriteData` gives it as "SET_CD; SET_RD; SET_WR; CLR_CS". -/
def CLR_CS_SET_CD_RD_WR (p : Lines) : Lines := CLR_CS (SET_WR (SET_RD (SET_CD p)))

/-- Modelled from the spec: macro `SET_CD_RD_WR` of ILI9328.h; the comment in
`ili9328ReadData` gives it as "SET_CD; SET_RD; SET_WR". -/
def SET_CD_RD_WR (p : Lines) : Lines := SET_WR (SET_RD (SET_CD p))

/-- Modelled from the spec: macro `SET_WR_CS` of ILI9328.h; the comments give it
as "SET_WR; SET_CS;". -/
def SET_WR_CS (p : Lines) : Lines := SET_CS (SET_WR p)

/-- Modelled from the spec: an assignment to `ILI9328_GPIO2DATA_DATA` (macro of
ILI9328.h), the masked data port: of the value assigned, exactly the bits
`d .. d+7` reach the eight data lines, `d` being `ILI9328_DATA_OFFSET`. -/
def assign_GPIO2DATA_DATA (d v : Nat) (p : Lines) : Lines :=
  { p with data := (v >>> d) &&& 0xFF }

/-- Modelled from the spec: a read of `ILI9328_GPIO2DATA_DATA` (macro of
ILI9328.h): the next sample of the port register. -/
def read_GPIO2DATA_DATA (p : Lines) : Nat × Lines :=
  (p.port p.samples, { p with samples := p.samples + 1 })

/-- Modelled from the spec: macro `ILI9328_GPIO2DATA_SETINPUT` of ILI9328.h, the
shared data lines switched to input direction. -/
def ILI9328_GPIO2DATA_SETINPUT (p : Lines) : Lines := { p with dataIsOutput := false }

/-- Modelled from the spec: macro `ILI9328_GPIO2DATA_SETOUTPUT` of ILI9328.h, the
shared data lines switched to output direction. -/
def ILI9328_GPIO2DATA_SETOUTPUT (p : Lines) : Lines := { p with dataIsOutput := true }

/-- Source function `ili9328Delay`: a busy-wait of `t` times ten `nop`s; it
touches no line. -/
def ili9328Delay (_t : Nat) (p : Lines) : Lines := p

/-- Source function `ili9328WriteCmd` at pin level; `d` is
`ILI9328_DATA_OFFSET`, `command` a `uint16_t`.  The shift count
`8 - ILI9328_DATA_OFFSET` of the C code is defined for `d ≤ 8` only. -/
def ili9328WriteCmd (d command : Nat) (p : Lines) : Lines :=
  let p := CLR_CS_CD_SET_RD_WR p
  let p := assign_GPIO2DATA_DATA d (command >>> (8 - d)) p
  let p := CLR_WR p
  let p := SET_WR p
  let p := assign_GPIO2DATA_DATA d (command <<< d) p
  let p := CLR_WR p
  SET_WR_CS p

/-- Source function `ili9328WriteData` at pin level; `d` is
`ILI9328_DATA_OFFSET`, `data` a `uint16_t`.  The shift count
`8 - ILI9328_DATA_OFFSET` of the C code is defined for `d ≤ 8` only. -/
def ili9328WriteData (d data : Nat) (p : Lines) : Lines :=
  let p := CLR_CS_SET_CD_RD_WR p
  let p := assign_GPIO2DATA_DATA d (data >>> (8 - d)) p
  let p := CLR_WR p
  let p := SET_WR p
  let p := assign_GPIO2DATA_DATA d (data <<< d) p
  let p := CLR_WR p
  SET_WR_CS p

/-- Source function `ili9328ReadData` at pin level; `d` is
`ILI9328_DATA_OFFSET`; `high`, `low` and the result (named `d` in the C code)
are `uint16_t`. -/
def ili9328ReadData (d : Nat) (p : Lines) : Nat × Lines :=
  let p := SET_CD_RD_WR p
  let p := CLR_CS p
  -- set inputs
  let p := ILI9328_GPIO2DATA_SETINPUT p
  let p := CLR_RD p
  let p := ili9328Delay 100 p
  let r := read_GPIO2DATA_DATA p
  let high := r.1 % 65536
  let p := r.2
  let high := high >>> d
  let high := high &&& 0xFF
  let p := SET_RD p
  let p := CLR_RD p
  let p := ili9328Delay 100 p
  let r := read_GPIO2DATA_DATA p
  let low := r.1 % 65536
  let p := r.2
  let low := low >>> d
  let low := low &&& 0xFF
  let p := SET_RD p
  let p := SET_CS p
  let p := ILI9328_GPIO2DATA_SETOUTPUT p
  let result := high
  let result := (result <<< 8) % 65536
  let result := result ||| low
  (result, p)

/-- Lines at rest after bring-up (`ili9328InitDisplay` does SET_RD, SET_WR,
SET_CS, SET_CD with the data port as output), nothing strobed yet. -/
def idle (port : Nat → Nat) : Lines :=
  { CS := true, CD := true, RD := true, WR := true, data := 0, dataIsOutput := true,
    writeStrobes := [], readStrobes := [], port := port, samples := 0 }

end ILI9328.Pin

/-! ## 32-bit timer (core/timer32/timer32.c) -/

namespace Timer32

/-- Registers of the two 32-bit timers that `timer32DelayUS` loads with numbers:
prescaler and match register 0 of timer 0 and of timer 1.  The control,
interrupt and match-control registers are written with constants of lpc134x.h,
which is not among the sources, and are left out. -/
structure Regs where
  TMR_TMR32B0PR : Nat
  TMR_TMR32B0MR0 : Nat
  TMR_TMR32B1PR : Nat
  TMR_TMR32B1MR0 : Nat
  deriving DecidableEq, Repr

/-- Source function `timer32DelayUS`, up to the start of the timer: the register
loads.  `CFG_CPU_CCLK` and `SCB_SYSAHBCLKDIV` are configuration constants from
headers that are not among the sources and are parameters; the product is
formed in `uint32_t`.  The final busy-wait on the hardware clearing the
counter-enable bit writes no register. -/
def timer32DelayUS (CFG_CPU_CCLK SCB_SYSAHBCLKDIV : Nat) (timerNum delayInUS : Nat)
    (r : Regs) : Regs :=
  if timerNum = 0 then
    { r with
      TMR_TMR32B0PR := 0x00
      TMR_TMR32B0MR0 :=
        (delayInUS * ((CFG_CPU_CCLK / SCB_SYSAHBCLKDIV) / 1000000)) % 4294967296 }
  else if timerNum = 1 then
    { r with
      TMR_TMR32B1PR := 0x00
      TMR_TMR32B1MR0 :=
        (delayInUS * ((CFG_CPU_CCLK / SCB_SYSAHBCLKDIV) / 1000000)) % 4294967296 }
  else r

end Timer32

namespace ILI9328

open lcdOrientation_t Command

/-! ## Shared lemmas -/

/-- Bus trace after `ili9328SetCursor`, written out. -/
lemma ili9328SetCursor_trace (x y : Nat) (s : Driver) :
    (ili9328SetCursor x y s).trace =
      s.trace ++ [BusOp.writeCmd HORIZONTALGRAMADDRESSSET,
        BusOp.writeData (ili9328SetCursor_al_ah s.lcdOrientation x y).1,
        BusOp.writeCmd VERTICALGRAMADDRESSSET,
        BusOp.writeData (ili9328SetCursor_al_ah s.lcdOrientation x y).2] := by
  simp [ili9328SetCursor, ili9328Command, ili9328WriteData, ili9328WriteCmd]

/-- Everything but the trace is left alone by `ili9328SetCursor`. -/
lemma ili9328SetCursor_frame (x y : Nat) (s : Driver) :
    (ili9328SetCursor x y s).lcdOrientation = s.lcdOrientation ∧
    (ili9328SetCursor x y s).input = s.input ∧
    (ili9328SetCursor x y s).reads = s.reads := by
  simp [ili9328SetCursor, ili9328Command, ili9328WriteData, ili9328WriteCmd]

lemma lcdGetWidth_cases (s : Driver) : lcdGetWidth s = 240 ∨ lcdGetWidth s = 320 := by
  unfold lcdGetWidth
  cases s.lcdOrientation <;> simp [ili9328Properties]

lemma toUInt16_pred (w : Nat) (h1 : 1 ≤ w) (h2 : w ≤ 65536) :
    toUInt16 ((w : Int) - 1) = w - 1 := by
  unfold toUInt16
  omega

/-- The loop of `lcdDrawHLine` started at `pixels` with `n` iterations to go
issues `n` data writes of `color` and stops, given fuel for `n + 1` tests. -/
lemma lcdDrawHLine_loop_eq (x0 x1 color : Nat) (hle : x0 ≤ x1) (hb : x1 - x0 + 1 < 65536) :
    ∀ (n fuel pixels : Nat) (s : Driver), pixels + n = x1 - x0 + 1 → n < fuel →
      lcdDrawHLine_loop x0 x1 color fuel pixels s =
        some { s with trace := s.trace ++ List.replicate n (BusOp.writeData color) } := by
  intro n
  induction n with
  | zero =>
    intro fuel pixels s hp hf
    obtain ⟨f, rfl⟩ : ∃ f, fuel = f + 1 := ⟨fuel - 1, by omega⟩
    have hc : ¬ ((pixels : Int) < (x1 : Int) - (x0 : Int) + 1) := by omega
    simp [lcdDrawHLine_loop, hc]
  | succ n ih =>
    intro fuel pixels s hp hf
    obtain ⟨f, rfl⟩ : ∃ f, fuel = f + 1 := ⟨fuel - 1, by omega⟩
    have hc : (pixels : Int) < (x1 : Int) - (x0 : Int) + 1 := by omega
    have hm : (pixels + 1) % 65536 = pixels + 1 := Nat.mod_eq_of_lt (by omega)
    rw [lcdDrawHLine_loop, if_pos hc, hm, ih f (pixels + 1) _ (by omega) (by omega)]
    simp [ili9328WriteData, List.replicate_succ]

/-- What `lcdDrawHLine` does, given fuel for the loop. -/
lemma lcdDrawHLine_eq (fuel x0 x1 y color : Nat) (s : Driver) (hfuel : lcdGetWidth s < fuel) :
    lcdDrawHLine fuel x0 x1 y color s =
      some { s with trace :=
        ((ili9328SetCursor (min (min x0 x1) (lcdGetWidth s - 1)) y s).trace ++
          [BusOp.writeCmd WRITEDATATOGRAM] ++
          List.replicate
            (min (max x0 x1) (lcdGetWidth s - 1) - min (min x0 x1) (lcdGetWidth s - 1) + 1)
            (BusOp.writeData color)) } := by
  have hW := lcdGetWidth_cases s
  have hW1 : 1 ≤ lcdGetWidth s := by omega
  have hW2 : lcdGetWidth s ≤ 65536 := by omega
  have hp1 : (if x1 < x0 then (x1, x0) else (x0, x1)).1 = min x0 x1 := by
    split <;> simp <;> omega
  have hp2 : (if x1 < x0 then (x1, x0) else (x0, x1)).2 = max x0 x1 := by
    split <;> simp <;> omega
  have hc1 : (if max x0 x1 ≥ lcdGetWidth s then toUInt16 ((lcdGetWidth s : Int) - 1)
      else max x0 x1) = min (max x0 x1) (lcdGetWidth s - 1) := by
    rw [toUInt16_pred _ hW1 hW2]; split <;> omega
  have hc0 : (if min x0 x1 ≥ lcdGetWidth s then toUInt16 ((lcdGetWidth s : Int) - 1)
      else min x0 x1) = min (min x0 x1) (lcdGetWidth s - 1) := by
    rw [toUInt16_pred _ hW1 hW2]; split <;> omega
  unfold lcdDrawHLine
  simp only [hp1, hp2, hc1, hc0]
  generalize ha : min (min x0 x1) (lcdGetWidth s - 1) = a
  generalize hb : min (max x0 x1) (lcdGetWidth s - 1) = b
  rw [lcdDrawHLine_loop_eq a b color (by omega) (by omega) (b - a + 1) fuel 0 _
    (by omega) (by omega)]
  simp [ili9328WriteCmd, ili9328SetCursor, ili9328Command, ili9328WriteData]
lemma toInt16_of_range (z : Int) (h1 : -32768 ≤ z) (h2 : z ≤ 32767) : toInt16 z = z := by
  unfold toInt16
  omega

/-- The first loop of `lcdScroll` on an `int16_t` value that needs at most `n`
additions of 320 to become non-negative. -/
lemma lcdScroll_loop1_eq : ∀ (n fuel : Nat) (y : Int), -32768 ≤ y → y ≤ 32767 →
    -(320 * (n : Int)) ≤ y → n < fuel →
    lcdScroll_loop1 fuel y = some (if y < 0 then y % 320 else y) := by
  intro n
  induction n with
  | zero =>
    intro fuel y _ _ h0 hf
    obtain ⟨f, rfl⟩ : ∃ f, fuel = f + 1 := ⟨fuel - 1, by omega⟩
    have hy : ¬ y < 0 := by omega
    simp [lcdScroll_loop1, hy]
  | succ n ih =>
    intro fuel y hlo hhi hn hf
    obtain ⟨f, rfl⟩ : ∃ f, fuel = f + 1 := ⟨fuel - 1, by omega⟩
    by_cases hy : y < 0
    · rw [lcdScroll_loop1, if_pos hy, toInt16_of_range _ (by omega) (by omega),
        ih f (y + 320) (by omega) (by omega) (by push_cast at hn ⊢; omega) (by omega), if_pos hy]
      congr 1
      split <;> omega
    · simp [lcdScroll_loop1, hy]

/-- The second loop of `lcdScroll` on a non-negative `int16_t` value below
`320 * (n + 1)`. -/
lemma lcdScroll_loop2_eq : ∀ (n fuel : Nat) (y : Int), 0 ≤ y → y ≤ 32767 →
    y < 320 * ((n : Int) + 1) → n < fuel →
    lcdScroll_loop2 fuel y = some (y % 320) := by
  intro n
  induction n with
  | zero =>
    intro fuel y h0 _ hn hf
    obtain ⟨f, rfl⟩ : ∃ f, fuel = f + 1 := ⟨fuel - 1, by omega⟩
    have hy : ¬ y ≥ 320 := by omega
    rw [lcdScroll_loop2, if_neg hy]
    congr 1
    omega
  | succ n ih =>
    intro fuel y h0 hhi hn hf
    obtain ⟨f, rfl⟩ : ∃ f, fuel = f + 1 := ⟨fuel - 1, by omega⟩
    by_cases hy : y ≥ 320
    · rw [lcdScroll_loop2, if_pos hy, toInt16_of_range _ (by omega) (by omega),
        ih f (y - 320) (by omega) (by omega) (by push_cast at hn ⊢; omega) (by omega)]
      congr 1
      omega
    · rw [lcdScroll_loop2, if_neg hy]
      congr 1
      omega

/-- What `lcdScroll` does on any `int16_t` offset, given fuel for 104 loop
tests. -/
lemma lcdScroll_eq (fuel : Nat) (p : Int) (fillColor : Nat) (s : Driver)
    (hlo : -32768 ≤ p) (hhi : p ≤ 32767) (hfuel : 104 ≤ fuel) :
    lcdScroll fuel p fillColor s =
      some { s with trace := s.trace ++
        [BusOp.writeCmd VERTICALSCROLLCONTROL, BusOp.writeData (p % 320).toNat] } := by
  have h1 := lcdScroll_loop1_eq 103 fuel p hlo hhi (by omega) (by omega)
  have h2 : lcdScroll_loop2 fuel (if p < 0 then p % 320 else p) = some (p % 320) := by
    rw [lcdScroll_loop2_eq 102 fuel _ (by split <;> omega) (by split <;> omega)
      (by split <;> omega) (by omega)]
    congr 1
    split <;> omega
  have h3 : toUInt16 (p % 320) = (p % 320).toNat := by
    unfold toUInt16
    congr 1
    omega
  simp [lcdScroll, h1, h2, h3, ili9328WriteCmd, ili9328WriteData]

/-! ## Orientation and dimensions -/

/-- C1: in either orientation `lcdGetWidth() * lcdGetHeight()` is the product of
the two fields of `ili9328Properties`, that is 240 * 320 = 76800. -/
theorem lcdGetWidth_mul_lcdGetHeight (o : lcdOrientation_t) (s : Driver) :
    lcdGetWidth { s with lcdOrientation := o } * lcdGetHeight { s with lcdOrientation := o }
        = ili9328Properties.width * ili9328Properties.height ∧
    ili9328Properties.width * ili9328Properties.height = 240 * 320 ∧
    lcdGetWidth { s with lcdOrientation := o } * lcdGetHeight { s with lcdOrientation := o }
        = 76800 := by
  cases o <;> refine ⟨?_, ?_, ?_⟩ <;> simp only [lcdGetWidth, lcdGetHeight, ili9328Properties]

/-- C2: in the initial (Portrait) state the panel is 240 wide and 320 high; in
the state reached by `lcdSetOrientation(LCD_ORIENTATION_LANDSCAPE)` it is 320
wide and 240 high. -/
theorem lcdGetWidth_lcdGetHeight_scenario (input : Nat → Nat) :
    (initial input).lcdOrientation = LCD_ORIENTATION_PORTRAIT ∧
    lcdGetWidth (initial input) = 240 ∧
    lcdGetHeight (initial input) = 320 ∧
    lcdGetWidth (lcdSetOrientation LCD_ORIENTATION_LANDSCAPE (initial input)) = 320 ∧
    lcdGetHeight (lcdSetOrientation LCD_ORIENTATION_LANDSCAPE (initial input)) = 240 := by
  simp [initial, lcdSetOrientation, lcdGetWidth, lcdGetHeight, ili9328Properties,
    ili9328SetCursor, ili9328Command, ili9328WriteData, ili9328WriteCmd]

/-! ## Cursor -/

/-- C3: `ili9328SetCursor(x, y)` appends exactly two register writes to the bus
trace, horizontal GRAM address first and vertical GRAM address second, with
data `(x, y)` in Portrait and `(y, x)` in Landscape; none of the commands it
issues is a window-bound register, and the stored orientation (like the rest
of the state) is unchanged. -/
theorem ili9328SetCursor_spec (x y : Nat) (s : Driver) :
    (ili9328SetCursor x y s).trace =
      s.trace ++
        (match s.lcdOrientation with
         | LCD_ORIENTATION_PORTRAIT =>
           [BusOp.writeCmd HORIZONTALGRAMADDRESSSET, BusOp.writeData x,
            BusOp.writeCmd VERTICALGRAMADDRESSSET, BusOp.writeData y]
         | LCD_ORIENTATION_LANDSCAPE =>
           [BusOp.writeCmd HORIZONTALGRAMADDRESSSET, BusOp.writeData y,
            BusOp.writeCmd VERTICALGRAMADDRESSSET, BusOp.writeData x]) ∧
    ((ili9328SetCursor x y s).trace.drop s.trace.length).any BusOp.selectsWindowBound = false ∧
    (ili9328SetCursor x y s).lcdOrientation = s.lcdOrientation ∧
    (ili9328SetCursor x y s).input = s.input ∧
    (ili9328SetCursor x y s).reads = s.reads := by
  refine ⟨?_, ?_, ili9328SetCursor_frame x y s⟩
  · rw [ili9328SetCursor_trace]
    cases h : s.lcdOrientation <;> simp [ili9328SetCursor_al_ah]
  · rw [ili9328SetCursor_trace, List.drop_left]
    simp [BusOp.selectsWindowBound, Command.isWindowBound]

/-- C4 (as stated, refuted): at `(x, y) = (0, 1)` the Landscape mapping applied
to the Portrait mapping of `(x, y)` is `(1, 0)`, not `(0, 1)`. -/
theorem mapCursor_landscape_portrait_counterexample :
    ili9328SetCursor_al_ah LCD_ORIENTATION_LANDSCAPE
        (ili9328SetCursor_al_ah LCD_ORIENTATION_PORTRAIT 0 1).1
        (ili9328SetCursor_al_ah LCD_ORIENTATION_PORTRAIT 0 1).2 = (1, 0) ∧
    ili9328SetCursor_al_ah LCD_ORIENTATION_LANDSCAPE
        (ili9328SetCursor_al_ah LCD_ORIENTATION_PORTRAIT 0 1).1
        (ili9328SetCursor_al_ah LCD_ORIENTATION_PORTRAIT 0 1).2 ≠ (0, 1) := by
  decide

/-- C4 (amended): the Landscape mapping applied to the Portrait mapping of
`(x, y)` is the swapped pair `(y, x)`, which is `(x, y)` exactly when `x = y`;
what does return `(x, y)` is either mapping applied twice. -/
theorem mapCursor_landscape_portrait (x y : Nat) :
    ili9328SetCursor_al_ah LCD_ORIENTATION_LANDSCAPE
        (ili9328SetCursor_al_ah LCD_ORIENTATION_PORTRAIT x y).1
        (ili9328SetCursor_al_ah LCD_ORIENTATION_PORTRAIT x y).2 = (y, x) ∧
    (ili9328SetCursor_al_ah LCD_ORIENTATION_LANDSCAPE
        (ili9328SetCursor_al_ah LCD_ORIENTATION_PORTRAIT x y).1
        (ili9328SetCursor_al_ah LCD_ORIENTATION_PORTRAIT x y).2 = (x, y) ↔ x = y) ∧
    (∀ o, ili9328SetCursor_al_ah o
        (ili9328SetCursor_al_ah o x y).1 (ili9328SetCursor_al_ah o x y).2 = (x, y)) := by
  refine ⟨by simp [ili9328SetCursor_al_ah], ?_, ?_⟩
  · simp [ili9328SetCursor_al_ah]
    omega
  · intro o; cases o <;> simp [ili9328SetCursor_al_ah]

/-! ## Horizontal lines -/

/-- C5: with fuel for the loop, `lcdDrawHLine(x0, x1, y, color)` and
`lcdDrawHLine(x1, x0, y, color)` both return, and they leave the same state
behind: the same bus transactions in the same order. -/
theorem lcdDrawHLine_swap (fuel x0 x1 y color : Nat) (s : Driver)
    (hfuel : lcdGetWidth s < fuel) :
    lcdDrawHLine fuel x0 x1 y color s = lcdDrawHLine fuel x1 x0 y color s ∧
    (lcdDrawHLine fuel x0 x1 y color s).isSome = true ∧
    (lcdDrawHLine fuel x1 x0 y color s).isSome = true := by
  rw [lcdDrawHLine_eq fuel x0 x1 y color s hfuel, lcdDrawHLine_eq fuel x1 x0 y color s hfuel,
    min_comm x1 x0, max_comm x1 x0]
  simp

/-- Witness for C5 at `lcdDrawHLine(300, 10, 5, RED)` in the Portrait state. -/
theorem lcdDrawHLine_swap_witness :
    lcdGetWidth (initial zeroInput) < 241 ∧
    (lcdDrawHLine 241 300 10 5 COLOR_RED (initial zeroInput) =
        lcdDrawHLine 241 10 300 5 COLOR_RED (initial zeroInput) ∧
      (lcdDrawHLine 241 300 10 5 COLOR_RED (initial zeroInput)).isSome = true ∧
      (lcdDrawHLine 241 10 300 5 COLOR_RED (initial zeroInput)).isSome = true) :=
  ⟨by decide, lcdDrawHLine_swap 241 300 10 5 COLOR_RED (initial zeroInput) (by decide)⟩

/-- C6 (as stated, refuted): in the Portrait state `lcdDrawHLine(300, 10, 5, RED)`
puts the cursor at (10, 5) and issues 230 pixel data writes; its trace is not
the single-pixel write at (239, 5). -/
theorem lcdDrawHLine_300_10_counterexample :
    Option.map Driver.trace (lcdDrawHLine 241 300 10 5 COLOR_RED (initial zeroInput)) =
      some ([BusOp.writeCmd HORIZONTALGRAMADDRESSSET, BusOp.writeData 10,
             BusOp.writeCmd VERTICALGRAMADDRESSSET, BusOp.writeData 5,
             BusOp.writeCmd WRITEDATATOGRAM] ++
            List.replicate 230 (BusOp.writeData COLOR_RED)) ∧
    Option.map Driver.trace (lcdDrawHLine 241 300 10 5 COLOR_RED (initial zeroInput)) ≠
      some [BusOp.writeCmd HORIZONTALGRAMADDRESSSET, BusOp.writeData 239,
            BusOp.writeCmd VERTICALGRAMADDRESSSET, BusOp.writeData 5,
            BusOp.writeCmd WRITEDATATOGRAM, BusOp.writeData COLOR_RED] := by
  have h : Option.map Driver.trace (lcdDrawHLine 241 300 10 5 COLOR_RED (initial zeroInput)) =
      some ([BusOp.writeCmd HORIZONTALGRAMADDRESSSET, BusOp.writeData 10,
             BusOp.writeCmd VERTICALGRAMADDRESSSET, BusOp.writeData 5,
             BusOp.writeCmd WRITEDATATOGRAM] ++
            List.replicate 230 (BusOp.writeData COLOR_RED)) := by
    rw [lcdDrawHLine_eq 241 300 10 5 COLOR_RED (initial zeroInput) (by decide)]
    simp [ili9328SetCursor_trace, ili9328SetCursor_al_ah, lcdGetWidth, initial,
      ili9328Properties]
  refine ⟨h, ?_⟩
  rw [h]
  simp

/-- C6 (amended): in Portrait orientation, with fuel for the loop,
`lcdDrawHLine(300, 10, 5, color)` swaps the endpoints, clamps only the larger
one to 239, sets the cursor to (10, 5), issues the GRAM-write command and then
exactly 230 data writes of `color`.  For all endpoints `x0`, `x1` the span
starts at `a = min(min(x0,x1), 239)` and has `min(max(x0,x1), 239) - a + 1`
data writes; both endpoints end at 239, which gives the single write at 239,
exactly when `x0 ≥ 239` and `x1 ≥ 239`, and the smaller endpoint is altered by
the clamp exactly when both are at least 240, as in
`lcdDrawHLine(300, 250, 5, color)`. -/
theorem lcdDrawHLine_300_10 (fuel x0 x1 y color : Nat) (s : Driver) (hfuel : 240 < fuel) :
    lcdDrawHLine fuel 300 10 5 color { s with lcdOrientation := LCD_ORIENTATION_PORTRAIT } =
      some { s with
        lcdOrientation := LCD_ORIENTATION_PORTRAIT
        trace := s.trace ++
          ([BusOp.writeCmd HORIZONTALGRAMADDRESSSET, BusOp.writeData 10,
            BusOp.writeCmd VERTICALGRAMADDRESSSET, BusOp.writeData 5,
            BusOp.writeCmd WRITEDATATOGRAM] ++
           List.replicate 230 (BusOp.writeData color)) } ∧
    lcdDrawHLine fuel 300 250 5 color { s with lcdOrientation := LCD_ORIENTATION_PORTRAIT } =
      some { s with
        lcdOrientation := LCD_ORIENTATION_PORTRAIT
        trace := s.trace ++
          [BusOp.writeCmd HORIZONTALGRAMADDRESSSET, BusOp.writeData 239,
           BusOp.writeCmd VERTICALGRAMADDRESSSET, BusOp.writeData 5,
           BusOp.writeCmd WRITEDATATOGRAM, BusOp.writeData color] } ∧
    lcdDrawHLine fuel x0 x1 y color { s with lcdOrientation := LCD_ORIENTATION_PORTRAIT } =
      some { s with
        lcdOrientation := LCD_ORIENTATION_PORTRAIT
        trace := s.trace ++
          ([BusOp.writeCmd HORIZONTALGRAMADDRESSSET, BusOp.writeData (min (min x0 x1) 239),
            BusOp.writeCmd VERTICALGRAMADDRESSSET, BusOp.writeData y,
            BusOp.writeCmd WRITEDATATOGRAM] ++
           List.replicate (min (max x0 x1) 239 - min (min x0 x1) 239 + 1)
             (BusOp.writeData color)) } ∧
    ((min (min x0 x1) 239 = 239 ∧ min (max x0 x1) 239 = 239) ↔ (239 ≤ x0 ∧ 239 ≤ x1)) ∧
    ((min (min x0 x1) 239 = 239 ∧ min (max x0 x1) 239 - min (min x0 x1) 239 + 1 = 1) ↔
      (239 ≤ x0 ∧ 239 ≤ x1)) ∧
    (min (min x0 x1) 239 ≠ min x0 x1 ↔ (240 ≤ x0 ∧ 240 ≤ x1)) ∧
    (min (max x0 x1) 239 ≠ max x0 x1 ↔ (240 ≤ x0 ∨ 240 ≤ x1)) := by
  have hW : lcdGetWidth { s with lcdOrientation := LCD_ORIENTATION_PORTRAIT } = 240 := rfl
  refine ⟨?_, ?_, ?_, by omega, by omega, by omega, by omega⟩
  · rw [lcdDrawHLine_eq fuel 300 10 5 color _ (by rw [hW]; exact hfuel), hW]
    simp [ili9328SetCursor_trace, ili9328SetCursor_al_ah]
  · rw [lcdDrawHLine_eq fuel 300 250 5 color _ (by rw [hW]; exact hfuel), hW]
    simp [ili9328SetCursor_trace, ili9328SetCursor_al_ah]
  · rw [lcdDrawHLine_eq fuel x0 x1 y color _ (by rw [hW]; exact hfuel), hW]
    simp [ili9328SetCursor_trace, ili9328SetCursor_al_ah]

/-- Witness for the amended C6 with RED on the initial state; the general part
is taken at `lcdDrawHLine(300, 210, 5, RED)`. -/
theorem lcdDrawHLine_300_10_witness :
    240 < 241 ∧
    (lcdDrawHLine 241 300 10 5 COLOR_RED
        { initial zeroInput with lcdOrientation := LCD_ORIENTATION_PORTRAIT } =
      some { initial zeroInput with
        lcdOrientation := LCD_ORIENTATION_PORTRAIT
        trace := (initial zeroInput).trace ++
          ([BusOp.writeCmd HORIZONTALGRAMADDRESSSET, BusOp.writeData 10,
            BusOp.writeCmd VERTICALGRAMADDRESSSET, BusOp.writeData 5,
            BusOp.writeCmd WRITEDATATOGRAM] ++
           List.replicate 230 (BusOp.writeData COLOR_RED)) } ∧
    lcdDrawHLine 241 300 250 5 COLOR_RED
        { initial zeroInput with lcdOrientation := LCD_ORIENTATION_PORTRAIT } =
      some { initial zeroInput with
        lcdOrientation := LCD_ORIENTATION_PORTRAIT
        trace := (initial zeroInput).trace ++
          [BusOp.writeCmd HORIZONTALGRAMADDRESSSET, BusOp.writeData 239,
           BusOp.writeCmd VERTICALGRAMADDRESSSET, BusOp.writeData 5,
           BusOp.writeCmd WRITEDATATOGRAM, BusOp.writeData COLOR_RED] } ∧
    lcdDrawHLine 241 300 210 5 COLOR_RED
        { initial zeroInput with lcdOrientation := LCD_ORIENTATION_PORTRAIT } =
      some { initial zeroInput with
        lcdOrientation := LCD_ORIENTATION_PORTRAIT
        trace := (initial zeroInput).trace ++
          ([BusOp.writeCmd HORIZONTALGRAMADDRESSSET, BusOp.writeData (min (min 300 210) 239),
            BusOp.writeCmd VERTICALGRAMADDRESSSET, BusOp.writeData 5,
            BusOp.writeCmd WRITEDATATOGRAM] ++
           List.replicate (min (max 300 210) 239 - min (min 300 210) 239 + 1)
             (BusOp.writeData COLOR_RED)) } ∧
    ((min (min 300 210) 239 = 239 ∧ min (max 300 210) 239 = 239) ↔ (239 ≤ 300 ∧ 239 ≤ 210)) ∧
    ((min (min 300 210) 239 = 239 ∧ min (max 300 210) 239 - min (min 300 210) 239 + 1 = 1) ↔
      (239 ≤ 300 ∧ 239 ≤ 210)) ∧
    (min (min 300 210) 239 ≠ min 300 210 ↔ (240 ≤ 300 ∧ 240 ≤ 210)) ∧
    (min (max 300 210) 239 ≠ max 300 210 ↔ (240 ≤ 300 ∨ 240 ≤ 210))) :=
  ⟨by decide, lcdDrawHLine_300_10 241 300 210 5 COLOR_RED (initial zeroInput) (by decide)⟩

/-- C7: with `W = lcdGetWidth()`, `a = min(min(x0,x1), W-1)` and
`b = min(max(x0,x1), W-1)`, and fuel for the loop, `lcdDrawHLine(x0, x1, y, color)`
returns and its bus trace is that of `ili9328SetCursor(a, y)`, then the
write-data-to-GRAM command, then exactly `b - a + 1` data writes of `color`,
and nothing else (the rest of the state is untouched); `1 ≤ b - a + 1 ≤ W`, and
`y` reaches the cursor unclamped. -/
theorem lcdDrawHLine_spec (fuel x0 x1 y color : Nat) (s : Driver)
    (hfuel : lcdGetWidth s < fuel) :
    lcdDrawHLine fuel x0 x1 y color s =
      some { s with trace :=
        ((ili9328SetCursor (min (min x0 x1) (lcdGetWidth s - 1)) y s).trace ++
          [BusOp.writeCmd WRITEDATATOGRAM] ++
          List.replicate
            (min (max x0 x1) (lcdGetWidth s - 1) - min (min x0 x1) (lcdGetWidth s - 1) + 1)
            (BusOp.writeData color)) } ∧
    (ili9328SetCursor (min (min x0 x1) (lcdGetWidth s - 1)) y s).trace =
      s.trace ++ [BusOp.writeCmd HORIZONTALGRAMADDRESSSET,
        BusOp.writeData
          (ili9328SetCursor_al_ah s.lcdOrientation (min (min x0 x1) (lcdGetWidth s - 1)) y).1,
        BusOp.writeCmd VERTICALGRAMADDRESSSET,
        BusOp.writeData
          (ili9328SetCursor_al_ah s.lcdOrientation (min (min x0 x1) (lcdGetWidth s - 1)) y).2] ∧
    min (min x0 x1) (lcdGetWidth s - 1) ≤ min (max x0 x1) (lcdGetWidth s - 1) ∧
    1 ≤ min (max x0 x1) (lcdGetWidth s - 1) - min (min x0 x1) (lcdGetWidth s - 1) + 1 ∧
    min (max x0 x1) (lcdGetWidth s - 1) - min (min x0 x1) (lcdGetWidth s - 1) + 1
      ≤ lcdGetWidth s := by
  have hW := lcdGetWidth_cases s
  refine ⟨lcdDrawHLine_eq fuel x0 x1 y color s hfuel, ili9328SetCursor_trace _ _ _, ?_, ?_, ?_⟩
    <;> omega

/-- Witness for C7 at `lcdDrawHLine(7, 3, 65535, RED)` in the Portrait state. -/
theorem lcdDrawHLine_spec_witness :
    lcdGetWidth (initial zeroInput) < 241 ∧
    (lcdDrawHLine 241 7 3 65535 COLOR_RED (initial zeroInput) =
      some { initial zeroInput with trace :=
        ((ili9328SetCursor (min (min 7 3) (lcdGetWidth (initial zeroInput) - 1)) 65535
            (initial zeroInput)).trace ++
          [BusOp.writeCmd WRITEDATATOGRAM] ++
          List.replicate
            (min (max 7 3) (lcdGetWidth (initial zeroInput) - 1) -
              min (min 7 3) (lcdGetWidth (initial zeroInput) - 1) + 1)
            (BusOp.writeData COLOR_RED)) } ∧
    (ili9328SetCursor (min (min 7 3) (lcdGetWidth (initial zeroInput) - 1)) 65535
        (initial zeroInput)).trace =
      (initial zeroInput).trace ++ [BusOp.writeCmd HORIZONTALGRAMADDRESSSET,
        BusOp.writeData
          (ili9328SetCursor_al_ah (initial zeroInput).lcdOrientation
            (min (min 7 3) (lcdGetWidth (initial zeroInput) - 1)) 65535).1,
        BusOp.writeCmd VERTICALGRAMADDRESSSET,
        BusOp.writeData
          (ili9328SetCursor_al_ah (initial zeroInput).lcdOrientation
            (min (min 7 3) (lcdGetWidth (initial zeroInput) - 1)) 65535).2] ∧
    min (min 7 3) (lcdGetWidth (initial zeroInput) - 1) ≤
      min (max 7 3) (lcdGetWidth (initial zeroInput) - 1) ∧
    1 ≤ min (max 7 3) (lcdGetWidth (initial zeroInput) - 1) -
      min (min 7 3) (lcdGetWidth (initial zeroInput) - 1) + 1 ∧
    min (max 7 3) (lcdGetWidth (initial zeroInput) - 1) -
      min (min 7 3) (lcdGetWidth (initial zeroInput) - 1) + 1
      ≤ lcdGetWidth (initial zeroInput)) :=
  ⟨by decide, lcdDrawHLine_spec 241 7 3 65535 COLOR_RED (initial zeroInput) (by decide)⟩

/-! ## Scrolling -/

/-- C8: for an `int16_t` offset `k` for which `k + 320` is an `int16_t` too, and
fuel for the loops, `lcdScroll(k, c)` and `lcdScroll(k + 320, c)` both return
and write the same data value, `k mod 320`, to the vertical-scroll-control
register. -/
theorem lcdScroll_periodic (fuel : Nat) (k : Int) (c : Nat) (s : Driver)
    (hlo : -32768 ≤ k) (hhi : k + 320 ≤ 32767) (hfuel : 104 ≤ fuel) :
    lcdScroll fuel k c s =
      some { s with trace := s.trace ++
        [BusOp.writeCmd VERTICALSCROLLCONTROL, BusOp.writeData (k % 320).toNat] } ∧
    lcdScroll fuel (k + 320) c s =
      some { s with trace := s.trace ++
        [BusOp.writeCmd VERTICALSCROLLCONTROL, BusOp.writeData (k % 320).toNat] } ∧
    lcdScroll fuel k c s = lcdScroll fuel (k + 320) c s := by
  have h1 := lcdScroll_eq fuel k c s hlo (by omega) hfuel
  have h2 := lcdScroll_eq fuel (k + 320) c s (by omega) hhi hfuel
  have h3 : (k + 320) % 320 = k % 320 := by omega
  rw [h3] at h2
  exact ⟨h1, h2, h1.trans h2.symm⟩

/-- Witness for C8 at the most negative offset, `lcdScroll(-32768, RED)`. -/
theorem lcdScroll_periodic_witness :
    (-32768 : Int) ≤ -32768 ∧ (-32768 : Int) + 320 ≤ 32767 ∧ 104 ≤ 104 ∧
    (lcdScroll 104 (-32768) COLOR_RED (initial zeroInput) =
      some { initial zeroInput with trace := (initial zeroInput).trace ++
        [BusOp.writeCmd VERTICALSCROLLCONTROL,
         BusOp.writeData ((-32768 : Int) % 320).toNat] } ∧
    lcdScroll 104 (-32768 + 320) COLOR_RED (initial zeroInput) =
      some { initial zeroInput with trace := (initial zeroInput).trace ++
        [BusOp.writeCmd VERTICALSCROLLCONTROL,
         BusOp.writeData ((-32768 : Int) % 320).toNat] } ∧
    lcdScroll 104 (-32768) COLOR_RED (initial zeroInput) =
      lcdScroll 104 (-32768 + 320) COLOR_RED (initial zeroInput)) :=
  ⟨by decide, by decide, by decide,
    lcdScroll_periodic 104 (-32768) COLOR_RED (initial zeroInput)
      (by decide) (by decide) (by decide)⟩

/-- C9: for every `int16_t` offset `p`, every fill colour and every orientation,
`lcdScroll` returns (104 loop tests suffice) and appends to the bus trace
exactly the vertical-scroll-control command and one data word `y`, where
`0 ≤ y < 320` and `y` is congruent to `p` modulo 320: the wrapping `int16_t`
additions and subtractions of the loops give the exact residue.  The appended
transactions are the same for any other fill colour and orientation. -/
theorem lcdScroll_spec (fuel : Nat) (p : Int) (fillColor : Nat) (s : Driver)
    (hlo : -32768 ≤ p) (hhi : p ≤ 32767) (hfuel : 104 ≤ fuel) :
    lcdScroll fuel p fillColor s =
      some { s with trace := s.trace ++
        [BusOp.writeCmd VERTICALSCROLLCONTROL, BusOp.writeData (p % 320).toNat] } ∧
    (p % 320).toNat < 320 ∧
    ((p % 320).toNat : Int) % 320 = p % 320 ∧
    (((p % 320).toNat : Int) - p) % 320 = 0 ∧
    (∀ (fillColor' : Nat) (o : lcdOrientation_t),
      lcdScroll fuel p fillColor' { s with lcdOrientation := o } =
        some { s with
          lcdOrientation := o
          trace := s.trace ++
            [BusOp.writeCmd VERTICALSCROLLCONTROL, BusOp.writeData (p % 320).toNat] }) := by
  refine ⟨lcdScroll_eq fuel p fillColor s hlo hhi hfuel, by omega, by omega, by omega, ?_⟩
  intro fillColor' o
  exact lcdScroll_eq fuel p fillColor' { s with lcdOrientation := o } hlo hhi hfuel

/-- Witness for C9 at `lcdScroll(32767, RED)`. -/
theorem lcdScroll_spec_witness :
    (-32768 : Int) ≤ 32767 ∧ (32767 : Int) ≤ 32767 ∧ 104 ≤ 104 ∧
    (lcdScroll 104 32767 COLOR_RED (initial zeroInput) =
      some { initial zeroInput with trace := (initial zeroInput).trace ++
        [BusOp.writeCmd VERTICALSCROLLCONTROL,
         BusOp.writeData ((32767 : Int) % 320).toNat] } ∧
    ((32767 : Int) % 320).toNat < 320 ∧
    ((((32767 : Int) % 320).toNat : Nat) : Int) % 320 = (32767 : Int) % 320 ∧
    (((((32767 : Int) % 320).toNat : Nat) : Int) - 32767) % 320 = 0 ∧
    (∀ (fillColor' : Nat) (o : lcdOrientation_t),
      lcdScroll 104 32767 fillColor' { initial zeroInput with lcdOrientation := o } =
        some { initial zeroInput with
          lcdOrientation := o
          trace := (initial zeroInput).trace ++
            [BusOp.writeCmd VERTICALSCROLLCONTROL,
             BusOp.writeData ((32767 : Int) % 320).toNat] })) :=
  ⟨by decide, by decide, by decide,
    lcdScroll_spec 104 32767 COLOR_RED (initial zeroInput) (by decide) (by decide) (by decide)⟩

/-! ## Reading a pixel -/

/-- C10: `lcdGetPixel(x, y)` performs exactly two `ili9328ReadData` transactions
and returns the word the panel supplies to the second one; the word supplied
to the first one has no influence on the return value. -/
theorem lcdGetPixel_spec (x y : Nat) (s : Driver) :
    ((lcdGetPixel x y s).2.trace.drop s.trace.length).count BusOp.readData = 2 ∧
    (lcdGetPixel x y s).2.reads = s.reads + 2 ∧
    (lcdGetPixel x y s).1 = s.input (s.reads + 1) % 65536 ∧
    (lcdGetPixel x y s).1 =
      (ili9328ReadData (ili9328WriteCmd WRITEDATATOGRAM (ili9328SetCursor x y
        (ili9328ReadData (ili9328WriteCmd WRITEDATATOGRAM
          (ili9328SetCursor x y s))).2))).1 ∧
    (∀ v : Nat, (lcdGetPixel x y { s with input := Function.update s.input s.reads v }).1 =
      (lcdGetPixel x y s).1) := by
  refine ⟨?_, ?_, ?_, rfl, ?_⟩
  · simp [lcdGetPixel, ili9328ReadData, ili9328WriteCmd, ili9328SetCursor, ili9328Command,
      ili9328WriteData, List.count_cons]
  · simp [lcdGetPixel, ili9328ReadData, ili9328WriteCmd, ili9328SetCursor, ili9328Command,
      ili9328WriteData]
  · simp [lcdGetPixel, ili9328ReadData, ili9328WriteCmd, ili9328SetCursor, ili9328Command,
      ili9328WriteData]
  · intro v
    simp [lcdGetPixel, ili9328ReadData, ili9328WriteCmd, ili9328SetCursor, ili9328Command,
      ili9328WriteData, Function.update]

/-! ## Further shared lemmas -/

/-- Bus trace after `ili9328Home`, written out; the rest of the state is kept. -/
lemma ili9328Home_eq (s : Driver) :
    ili9328Home s =
      { s with trace := s.trace ++
        [BusOp.writeCmd HORIZONTALGRAMADDRESSSET, BusOp.writeData 0,
         BusOp.writeCmd VERTICALGRAMADDRESSSET, BusOp.writeData 0,
         BusOp.writeCmd WRITEDATATOGRAM] } := by
  cases h : s.lcdOrientation <;>
    simp [ili9328Home, ili9328SetCursor, ili9328Command, ili9328WriteData, ili9328WriteCmd,
      ili9328SetCursor_al_ah, h]

/-- The loop of `lcdFillRGB` started at `i` with `n` iterations to go issues `n`
data writes and stops, given fuel for `n + 1` tests. -/
lemma lcdFillRGB_loop_eq (data pixels : Nat) (hb : pixels < 4294967296) :
    ∀ (n fuel i : Nat) (s : Driver), i + n = pixels → n < fuel →
      lcdFillRGB_loop data pixels fuel i s =
        some { s with trace := s.trace ++ List.replicate n (BusOp.writeData data) } := by
  intro n
  induction n with
  | zero =>
    intro fuel i s hp hf
    obtain ⟨f, rfl⟩ : ∃ f, fuel = f + 1 := ⟨fuel - 1, by omega⟩
    have hc : ¬ i < pixels := by omega
    simp [lcdFillRGB_loop, hc]
  | succ n ih =>
    intro fuel i s hp hf
    obtain ⟨f, rfl⟩ : ∃ f, fuel = f + 1 := ⟨fuel - 1, by omega⟩
    have hc : i < pixels := by omega
    have hm : (i + 1) % 4294967296 = i + 1 := Nat.mod_eq_of_lt (by omega)
    rw [lcdFillRGB_loop, if_pos hc, hm, ih f (i + 1) _ (by omega) (by omega)]
    simp [ili9328WriteData, List.replicate_succ]

/-- What `lcdFillRGB` does with `n` in place of the pixel count, given fuel. -/
lemma lcdFillRGB_loop_home (data n fuel : Nat) (s : Driver) (hn : n < 4294967296)
    (hfuel : n < fuel) :
    lcdFillRGB_loop data n fuel 0 (ili9328Home s) =
      some { s with trace := s.trace ++
        [BusOp.writeCmd HORIZONTALGRAMADDRESSSET, BusOp.writeData 0,
         BusOp.writeCmd VERTICALGRAMADDRESSSET, BusOp.writeData 0,
         BusOp.writeCmd WRITEDATATOGRAM] ++
        List.replicate n (BusOp.writeData data) } := by
  rw [lcdFillRGB_loop_eq data n hn n fuel 0 _ (by omega) hfuel, ili9328Home_eq]

/-- What `lcdFillRGB` does, given fuel for the loop. -/
lemma lcdFillRGB_eq (fuel data : Nat) (s : Driver) (hfuel : 76800 < fuel) :
    lcdFillRGB fuel data s =
      some { s with trace := s.trace ++
        [BusOp.writeCmd HORIZONTALGRAMADDRESSSET, BusOp.writeData 0,
         BusOp.writeCmd VERTICALGRAMADDRESSSET, BusOp.writeData 0,
         BusOp.writeCmd WRITEDATATOGRAM] ++
        List.replicate 76800 (BusOp.writeData data) } :=
  lcdFillRGB_loop_home data 76800 fuel s (by omega) hfuel

/-- Bus trace and stored orientation after `lcdSetOrientation`. -/
lemma lcdSetOrientation_eq (o : lcdOrientation_t) (s : Driver) :
    lcdSetOrientation o s =
      { s with
        lcdOrientation := o
        trace := s.trace ++
          [BusOp.writeCmd ENTRYMODE,
           BusOp.writeData
             (match o with
              | LCD_ORIENTATION_PORTRAIT => 0x1030
              | LCD_ORIENTATION_LANDSCAPE => 0x1028),
           BusOp.writeCmd DRIVEROUTPUTCONTROL1,
           BusOp.writeData
             (match o with
              | LCD_ORIENTATION_PORTRAIT => 0x0100
              | LCD_ORIENTATION_LANDSCAPE => 0x0000),
           BusOp.writeCmd HORIZONTALGRAMADDRESSSET, BusOp.writeData 0,
           BusOp.writeCmd VERTICALGRAMADDRESSSET, BusOp.writeData 0] } := by
  cases o <;>
    simp [lcdSetOrientation, ili9328SetCursor, ili9328Command, ili9328WriteData,
      ili9328WriteCmd, ili9328SetCursor_al_ah]

/-! ## Filling the screen -/

/-- C11: for every colour and in either orientation, `lcdFillRGB(color)` returns
(given fuel for the loop) and appends to the bus trace that of `ili9328Home()`
(both cursor registers written with 0, then the write-data-to-GRAM command)
followed by exactly 76800 = 240 * 320 data writes of `color`, and nothing else;
the trace does not depend on the stored orientation. -/
theorem lcdFillRGB_spec (fuel color : Nat) (s : Driver) (hfuel : 76800 < fuel) :
    lcdFillRGB fuel color s =
      some { s with trace :=
        ((ili9328Home s).trace ++ List.replicate 76800 (BusOp.writeData color)) } ∧
    (ili9328Home s).trace =
      s.trace ++
        [BusOp.writeCmd HORIZONTALGRAMADDRESSSET, BusOp.writeData 0,
         BusOp.writeCmd VERTICALGRAMADDRESSSET, BusOp.writeData 0,
         BusOp.writeCmd WRITEDATATOGRAM] ∧
    ili9328Properties.width * ili9328Properties.height = 76800 ∧
    (∀ o : lcdOrientation_t,
      Option.map Driver.trace (lcdFillRGB fuel color { s with lcdOrientation := o }) =
        Option.map Driver.trace (lcdFillRGB fuel color s)) := by
  refine ⟨?_, ?_, ?_, ?_⟩
  · rw [lcdFillRGB_eq fuel color s hfuel, ili9328Home_eq]
  · rw [ili9328Home_eq]
  · simp only [ili9328Properties]
  · intro o
    rw [lcdFillRGB_eq fuel color s hfuel, lcdFillRGB_eq fuel color _ hfuel]
    rfl

/-- Witness for C11 with RED on the initial state. -/
theorem lcdFillRGB_spec_witness :
    76800 < 76801 ∧
    (lcdFillRGB 76801 COLOR_RED (initial zeroInput) =
      some { initial zeroInput with trace :=
        ((ili9328Home (initial zeroInput)).trace ++
          List.replicate 76800 (BusOp.writeData COLOR_RED)) } ∧
    (ili9328Home (initial zeroInput)).trace =
      (initial zeroInput).trace ++
        [BusOp.writeCmd HORIZONTALGRAMADDRESSSET, BusOp.writeData 0,
         BusOp.writeCmd VERTICALGRAMADDRESSSET, BusOp.writeData 0,
         BusOp.writeCmd WRITEDATATOGRAM] ∧
    ili9328Properties.width * ili9328Properties.height = 76800 ∧
    (∀ o : lcdOrientation_t,
      Option.map Driver.trace
          (lcdFillRGB 76801 COLOR_RED { initial zeroInput with lcdOrientation := o }) =
        Option.map Driver.trace (lcdFillRGB 76801 COLOR_RED (initial zeroInput)))) :=
  ⟨by decide, lcdFillRGB_spec 76801 COLOR_RED (initial zeroInput) (by decide)⟩

/-! ## Setting the orientation -/

/-- C13: `lcdSetOrientation(o)` writes the entry-mode register and then the
driver-output-control register with the literal pair of `o` (Portrait 0x1030
and 0x0100, Landscape 0x1028 and 0x0000), stores `o`, and then writes the
horizontal and the vertical GRAM address register with 0; nothing else
changes, and a second call with the same `o` leaves the same stored
orientation as the first. -/
theorem lcdSetOrientation_spec (o : lcdOrientation_t) (s : Driver) :
    (lcdSetOrientation o s).trace =
      s.trace ++
        (match o with
         | LCD_ORIENTATION_PORTRAIT =>
           [BusOp.writeCmd ENTRYMODE, BusOp.writeData 0x1030,
            BusOp.writeCmd DRIVEROUTPUTCONTROL1, BusOp.writeData 0x0100,
            BusOp.writeCmd HORIZONTALGRAMADDRESSSET, BusOp.writeData 0,
            BusOp.writeCmd VERTICALGRAMADDRESSSET, BusOp.writeData 0]
         | LCD_ORIENTATION_LANDSCAPE =>
           [BusOp.writeCmd ENTRYMODE, BusOp.writeData 0x1028,
            BusOp.writeCmd DRIVEROUTPUTCONTROL1, BusOp.writeData 0x0000,
            BusOp.writeCmd HORIZONTALGRAMADDRESSSET, BusOp.writeData 0,
            BusOp.writeCmd VERTICALGRAMADDRESSSET, BusOp.writeData 0]) ∧
    (lcdSetOrientation o s).lcdOrientation = o ∧
    (lcdSetOrientation o s).input = s.input ∧
    (lcdSetOrientation o s).reads = s.reads ∧
    (lcdSetOrientation o (lcdSetOrientation o s)).lcdOrientation =
      (lcdSetOrientation o s).lcdOrientation ∧
    lcdGetWidth (lcdSetOrientation o (lcdSetOrientation o s)) =
      lcdGetWidth (lcdSetOrientation o s) ∧
    lcdGetHeight (lcdSetOrientation o (lcdSetOrientation o s)) =
      lcdGetHeight (lcdSetOrientation o s) := by
  simp only [lcdSetOrientation_eq, lcdGetWidth, lcdGetHeight]
  cases o <;> simp

/-! ## Window -/

/-- C14 (the code at the failing input): in Landscape orientation
`ili9328SetWindow(0, 100, 50, 200)` writes horizontal start/end = 0/50 and
vertical start/end = 100/200, the corners unmapped, and then puts the cursor at
horizontal 100, vertical 0, which lies outside that window; with the Landscape
mapping applied to the corners the window registers would have received
100/200 and 0/50. -/
theorem ili9328SetWindow_landscape :
    (ili9328SetWindow 0 100 50 200
        { initial zeroInput with lcdOrientation := LCD_ORIENTATION_LANDSCAPE }).trace =
      [BusOp.writeCmd HORIZONTALADDRESSSTARTPOSITION, BusOp.writeData 0,
       BusOp.writeCmd HORIZONTALADDRESSENDPOSITION, BusOp.writeData 50,
       BusOp.writeCmd VERTICALADDRESSSTARTPOSITION, BusOp.writeData 100,
       BusOp.writeCmd VERTICALADDRESSENDPOSITION, BusOp.writeData 200,
       BusOp.writeCmd HORIZONTALGRAMADDRESSSET, BusOp.writeData 100,
       BusOp.writeCmd VERTICALGRAMADDRESSSET, BusOp.writeData 0] ∧
    (ili9328SetWindow 0 100 50 200
        { initial zeroInput with lcdOrientation := LCD_ORIENTATION_LANDSCAPE }).trace ≠
      [BusOp.writeCmd HORIZONTALADDRESSSTARTPOSITION, BusOp.writeData 100,
       BusOp.writeCmd HORIZONTALADDRESSENDPOSITION, BusOp.writeData 200,
       BusOp.writeCmd VERTICALADDRESSSTARTPOSITION, BusOp.writeData 0,
       BusOp.writeCmd VERTICALADDRESSENDPOSITION, BusOp.writeData 50,
       BusOp.writeCmd HORIZONTALGRAMADDRESSSET, BusOp.writeData 100,
       BusOp.writeCmd VERTICALGRAMADDRESSSET, BusOp.writeData 0] := by
  decide

/-! ## Reading a pixel: the bus trace -/

/-- C16 (as stated, refuted): the trace of `lcdGetPixel(3, 4)` has a second
pair of cursor writes and a second write-data-to-GRAM command between its two
reads; it is not cursor writes, one command and two consecutive reads. -/
theorem lcdGetPixel_trace_counterexample :
    (lcdGetPixel 3 4 (initial zeroInput)).2.trace =
      [BusOp.writeCmd HORIZONTALGRAMADDRESSSET, BusOp.writeData 3,
       BusOp.writeCmd VERTICALGRAMADDRESSSET, BusOp.writeData 4,
       BusOp.writeCmd WRITEDATATOGRAM, BusOp.readData,
       BusOp.writeCmd HORIZONTALGRAMADDRESSSET, BusOp.writeData 3,
       BusOp.writeCmd VERTICALGRAMADDRESSSET, BusOp.writeData 4,
       BusOp.writeCmd WRITEDATATOGRAM, BusOp.readData] ∧
    (lcdGetPixel 3 4 (initial zeroInput)).2.trace ≠
      [BusOp.writeCmd HORIZONTALGRAMADDRESSSET, BusOp.writeData 3,
       BusOp.writeCmd VERTICALGRAMADDRESSSET, BusOp.writeData 4,
       BusOp.writeCmd WRITEDATATOGRAM, BusOp.readData, BusOp.readData] ∧
    (lcdGetPixel 3 4 (initial zeroInput)).2.trace.count (BusOp.writeCmd WRITEDATATOGRAM) = 2 := by
  decide

/-- C16 (amended): the trace of `lcdGetPixel(x, y)` is the cursor writes of
`ili9328SetCursor(x, y)`, the write-data-to-GRAM command and one read, and then
the same three steps once more; the first read's result is discarded and the
second one's is returned. -/
theorem lcdGetPixel_trace (x y : Nat) (s : Driver) :
    (lcdGetPixel x y s).2.trace =
      s.trace ++
        [BusOp.writeCmd HORIZONTALGRAMADDRESSSET,
         BusOp.writeData (ili9328SetCursor_al_ah s.lcdOrientation x y).1,
         BusOp.writeCmd VERTICALGRAMADDRESSSET,
         BusOp.writeData (ili9328SetCursor_al_ah s.lcdOrientation x y).2,
         BusOp.writeCmd WRITEDATATOGRAM, BusOp.readData,
         BusOp.writeCmd HORIZONTALGRAMADDRESSSET,
         BusOp.writeData (ili9328SetCursor_al_ah s.lcdOrientation x y).1,
         BusOp.writeCmd VERTICALGRAMADDRESSSET,
         BusOp.writeData (ili9328SetCursor_al_ah s.lcdOrientation x y).2,
         BusOp.writeCmd WRITEDATATOGRAM, BusOp.readData] ∧
    (ili9328SetCursor x y s).trace =
      s.trace ++
        [BusOp.writeCmd HORIZONTALGRAMADDRESSSET,
         BusOp.writeData (ili9328SetCursor_al_ah s.lcdOrientation x y).1,
         BusOp.writeCmd VERTICALGRAMADDRESSSET,
         BusOp.writeData (ili9328SetCursor_al_ah s.lcdOrientation x y).2] ∧
    (lcdGetPixel x y s).1 = s.input (s.reads + 1) % 65536 ∧
    (lcdGetPixel x y s).2.lcdOrientation = s.lcdOrientation := by
  refine ⟨?_, ili9328SetCursor_trace x y s, ?_, ?_⟩ <;>
    simp [lcdGetPixel, ili9328ReadData, ili9328WriteCmd, ili9328SetCursor, ili9328Command,
      ili9328WriteData]

/-! ## Vertical lines -/

/-- What `lcdDrawVLine` does, given fuel for the loop of the embedded
`lcdDrawHLine`: the state `s1` after the first `lcdSetOrientation` is extended
by the horizontal span and handed to the second `lcdSetOrientation`. -/
lemma lcdDrawVLine_eq (fuel x y0 y1 color : Nat) (s s1 : Driver) (hfuel : 320 < fuel)
    (hs1 : s1 = lcdSetOrientation (lcdDrawVLine_switched s.lcdOrientation) s) :
    lcdDrawVLine fuel x y0 y1 color s =
      some (lcdSetOrientation s.lcdOrientation
        { s1 with trace :=
          ((ili9328SetCursor (min (min y0 y1) (lcdGetWidth s1 - 1))
              (toUInt16 ((lcdGetHeight s1 : Int) - ((x : Int) + 1))) s1).trace ++
            [BusOp.writeCmd WRITEDATATOGRAM] ++
            List.replicate
              (min (max y0 y1) (lcdGetWidth s1 - 1) - min (min y0 y1) (lcdGetWidth s1 - 1) + 1)
              (BusOp.writeData color)) }) := by
  have hW := lcdGetWidth_cases s1
  subst hs1
  unfold lcdDrawVLine
  simp only []
  rw [lcdDrawHLine_eq fuel y0 y1 _ color _ (by omega)]

/-- C12: whatever the starting orientation `o` and the arguments (clamped or
not), `lcdDrawVLine` returns (given fuel for the span's loop) with the stored
orientation equal to `o` again; the first `lcdSetOrientation` stores the other
orientation, the embedded `lcdDrawHLine` runs and ends with that other
orientation stored, and the second `lcdSetOrientation` is applied to whatever
state the span returns: the trace gains exactly two entry-mode writes. -/
theorem lcdDrawVLine_orientation (fuel x y0 y1 color : Nat) (s : Driver)
    (hfuel : 320 < fuel) :
    lcdDrawVLine_switched s.lcdOrientation ≠ s.lcdOrientation ∧
    (lcdSetOrientation (lcdDrawVLine_switched s.lcdOrientation) s).lcdOrientation =
      lcdDrawVLine_switched s.lcdOrientation ∧
    Option.map Driver.lcdOrientation
      (lcdDrawHLine fuel y0 y1
        (toUInt16 ((lcdGetHeight
          (lcdSetOrientation (lcdDrawVLine_switched s.lcdOrientation) s) : Int) - ((x : Int) + 1)))
        color (lcdSetOrientation (lcdDrawVLine_switched s.lcdOrientation) s)) =
      some (lcdDrawVLine_switched s.lcdOrientation) ∧
    lcdDrawVLine fuel x y0 y1 color s =
      Option.map (lcdSetOrientation s.lcdOrientation)
        (lcdDrawHLine fuel y0 y1
          (toUInt16 ((lcdGetHeight
            (lcdSetOrientation (lcdDrawVLine_switched s.lcdOrientation) s) : Int) -
              ((x : Int) + 1)))
          color (lcdSetOrientation (lcdDrawVLine_switched s.lcdOrientation) s)) ∧
    Option.map Driver.lcdOrientation (lcdDrawVLine fuel x y0 y1 color s) =
      some s.lcdOrientation ∧
    Option.map (fun r => (r.trace.drop s.trace.length).count (BusOp.writeCmd ENTRYMODE))
      (lcdDrawVLine fuel x y0 y1 color s) = some 2 := by
  have hW := lcdGetWidth_cases (lcdSetOrientation (lcdDrawVLine_switched s.lcdOrientation) s)
  refine ⟨?_, ?_, ?_, ?_, ?_, ?_⟩
  · cases h : s.lcdOrientation <;> simp [lcdDrawVLine_switched]
  · rw [lcdSetOrientation_eq]
  · rw [lcdDrawHLine_eq fuel y0 y1 _ color _ (by omega)]
    simp [lcdSetOrientation_eq]
  · rw [lcdDrawVLine_eq fuel x y0 y1 color s _ hfuel rfl,
      lcdDrawHLine_eq fuel y0 y1 _ color _ (by omega)]
    rfl
  · rw [lcdDrawVLine_eq fuel x y0 y1 color s _ hfuel rfl]
    simp [lcdSetOrientation_eq]
  · rw [lcdDrawVLine_eq fuel x y0 y1 color s _ hfuel rfl]
    simp [lcdSetOrientation_eq, ili9328SetCursor_trace, List.count_cons, List.count_replicate]

/-- Witness for C12 at `lcdDrawVLine(500, 400, 7, RED)`, all out of range but
one, on the initial state. -/
theorem lcdDrawVLine_orientation_witness :
    320 < 321 ∧
    (lcdDrawVLine_switched (initial zeroInput).lcdOrientation ≠
      (initial zeroInput).lcdOrientation ∧
    (lcdSetOrientation (lcdDrawVLine_switched (initial zeroInput).lcdOrientation)
        (initial zeroInput)).lcdOrientation =
      lcdDrawVLine_switched (initial zeroInput).lcdOrientation ∧
    Option.map Driver.lcdOrientation
      (lcdDrawHLine 321 400 7
        (toUInt16 ((lcdGetHeight
          (lcdSetOrientation (lcdDrawVLine_switched (initial zeroInput).lcdOrientation)
            (initial zeroInput)) : Int) - ((500 : Int) + 1)))
        COLOR_RED
        (lcdSetOrientation (lcdDrawVLine_switched (initial zeroInput).lcdOrientation)
          (initial zeroInput))) =
      some (lcdDrawVLine_switched (initial zeroInput).lcdOrientation) ∧
    lcdDrawVLine 321 500 400 7 COLOR_RED (initial zeroInput) =
      Option.map (lcdSetOrientation (initial zeroInput).lcdOrientation)
        (lcdDrawHLine 321 400 7
          (toUInt16 ((lcdGetHeight
            (lcdSetOrientation (lcdDrawVLine_switched (initial zeroInput).lcdOrientation)
              (initial zeroInput)) : Int) - ((500 : Int) + 1)))
          COLOR_RED
          (lcdSetOrientation (lcdDrawVLine_switched (initial zeroInput).lcdOrientation)
            (initial zeroInput))) ∧
    Option.map Driver.lcdOrientation (lcdDrawVLine 321 500 400 7 COLOR_RED (initial zeroInput)) =
      some (initial zeroInput).lcdOrientation ∧
    Option.map
      (fun r => (r.trace.drop (initial zeroInput).trace.length).count (BusOp.writeCmd ENTRYMODE))
      (lcdDrawVLine 321 500 400 7 COLOR_RED (initial zeroInput)) = some 2) :=
  ⟨by decide, lcdDrawVLine_orientation 321 500 400 7 COLOR_RED (initial zeroInput) (by decide)⟩

/-! ## Pixel runs -/

/-- The `do ... while` loop of `lcdDrawPixels` entered at index `i` with `n + 1`
passes to go writes `data[i], ..., data[i+n]` in order and stops, given fuel
for `n + 1` passes. -/
lemma lcdDrawPixels_loop_eq (data : Nat → Nat) (len : Nat) :
    ∀ (n fuel i : Nat) (s : Driver), i + n + 1 = max len (i + 1) → i + n + 1 < 4294967296 →
      n < fuel →
      lcdDrawPixels_loop data len fuel i s =
        some { s with trace := s.trace ++
          (List.range' i (n + 1)).map (fun k => BusOp.writeData (data k)) } := by
  intro n
  induction n with
  | zero =>
    intro fuel i s hp hb hf
    obtain ⟨f, rfl⟩ : ∃ f, fuel = f + 1 := ⟨fuel - 1, by omega⟩
    have hm : (i + 1) % 4294967296 = i + 1 := Nat.mod_eq_of_lt (by omega)
    have hc : ¬ i + 1 < len := by omega
    simp [lcdDrawPixels_loop, hm, hc, ili9328WriteData]
  | succ n ih =>
    intro fuel i s hp hb hf
    obtain ⟨f, rfl⟩ : ∃ f, fuel = f + 1 := ⟨fuel - 1, by omega⟩
    have hm : (i + 1) % 4294967296 = i + 1 := Nat.mod_eq_of_lt (by omega)
    have hc : i + 1 < len := by omega
    rw [lcdDrawPixels_loop]
    simp only [hm, if_pos hc]
    rw [ih f (i + 1) _ (by omega) (by omega) (by omega)]
    simp [ili9328WriteData, List.range'_succ]

/-- What `lcdDrawPixels` does for any `uint32_t` length, given fuel: the body
of the `do ... while` runs `max len 1` times. -/
lemma lcdDrawPixels_eq (fuel x y : Nat) (data : Nat → Nat) (len : Nat) (s : Driver)
    (hlen : len < 4294967296) (hfuel : max len 1 ≤ fuel) :
    lcdDrawPixels fuel x y data len s =
      some { s with trace :=
        ((ili9328SetCursor x y s).trace ++ [BusOp.writeCmd WRITEDATATOGRAM] ++
          (List.range (max len 1)).map (fun k => BusOp.writeData (data k))) } := by
  unfold lcdDrawPixels
  simp only []
  rw [lcdDrawPixels_loop_eq data len (max len 1 - 1) fuel 0 _ (by omega) (by omega) (by omega)]
  have h1 : max len 1 - 1 + 1 = max len 1 := by omega
  rw [h1, List.range_eq_range']
  simp [ili9328WriteCmd, ili9328SetCursor, ili9328Command, ili9328WriteData]

/-- C15: for a length `n ≥ 1` (a `uint32_t`) and fuel for `n` passes,
`lcdDrawPixels(x, y, data, n)` returns, and its bus trace is the cursor writes
of `ili9328SetCursor(x, y)`, the write-data-to-GRAM command, and exactly `n`
data writes `data[0], data[1], ..., data[n-1]` in that order; the rest of the
state is untouched. -/
theorem lcdDrawPixels_spec (fuel x y : Nat) (data : Nat → Nat) (n : Nat) (s : Driver)
    (hn1 : 1 ≤ n) (hn : n < 4294967296) (hfuel : n ≤ fuel) :
    lcdDrawPixels fuel x y data n s =
      some { s with trace :=
        ((ili9328SetCursor x y s).trace ++ [BusOp.writeCmd WRITEDATATOGRAM] ++
          (List.range n).map (fun k => BusOp.writeData (data k))) } ∧
    ((List.range n).map (fun k => BusOp.writeData (data k))).length = n := by
  have h := lcdDrawPixels_eq fuel x y data n s hn (by omega)
  have h1 : max n 1 = n := by omega
  rw [h1] at h
  exact ⟨h, by simp⟩

/-- Witness for C15: three pixels at (1, 2) on the initial state. -/
theorem lcdDrawPixels_spec_witness :
    1 ≤ 3 ∧ 3 < 4294967296 ∧ 3 ≤ 3 ∧
    (lcdDrawPixels 3 1 2 samplePixels 3 (initial zeroInput) =
      some { initial zeroInput with trace :=
        ((ili9328SetCursor 1 2 (initial zeroInput)).trace ++
          [BusOp.writeCmd WRITEDATATOGRAM] ++
          (List.range 3).map (fun k => BusOp.writeData (samplePixels k))) } ∧
    ((List.range 3).map (fun k => BusOp.writeData (samplePixels k))).length = 3) :=
  ⟨by decide, by decide, by decide,
    lcdDrawPixels_spec 3 1 2 samplePixels 3 (initial zeroInput)
      (by decide) (by decide) (by decide)⟩

/-! ## One write-data-to-GRAM command per burst -/

lemma all_isWriteData_replicate (n c : Nat) :
    (List.replicate n (BusOp.writeData c)).all BusOp.isWriteData = true := by
  induction n with
  | zero => rfl
  | succ n ih => simp [List.replicate_succ, BusOp.isWriteData, ih]

lemma all_isWriteData_map (l : List Nat) (data : Nat → Nat) :
    (l.map (fun k => BusOp.writeData (data k))).all BusOp.isWriteData = true := by
  induction l with
  | nil => rfl
  | cons a l ih => simp [BusOp.isWriteData, ih]

lemma count_eq_zero_of_all_isWriteData (c : Command) (l : List BusOp)
    (hl : l.all BusOp.isWriteData = true) : l.count (BusOp.writeCmd c) = 0 := by
  induction l with
  | nil => rfl
  | cons a l ih =>
    simp only [List.all_cons, Bool.and_eq_true] at hl
    cases a with
    | writeCmd c' => simp [BusOp.isWriteData] at hl
    | writeData v => simp [List.count_cons, ih hl.2]
    | readData => simp [BusOp.isWriteData] at hl

/-- A burst made of the two cursor register writes, the write-data-to-GRAM
command and data writes only has that command once, with only data writes
after it. -/
lemma burst_gram_once (s : Driver) (res : Option Driver) (r : Driver) (a b : Nat)
    (l : List BusOp) (hl : l.all BusOp.isWriteData = true) (hres : res = some r)
    (hr : r.trace = s.trace ++
      [BusOp.writeCmd HORIZONTALGRAMADDRESSSET, BusOp.writeData a,
       BusOp.writeCmd VERTICALGRAMADDRESSSET, BusOp.writeData b,
       BusOp.writeCmd WRITEDATATOGRAM] ++ l) :
    Option.map
      (fun r => ((r.trace.drop s.trace.length).count (BusOp.writeCmd WRITEDATATOGRAM),
        (afterGram (r.trace.drop s.trace.length)).all BusOp.isWriteData)) res =
      some (1, true) := by
  subst hres
  have hd : r.trace.drop s.trace.length =
      [BusOp.writeCmd HORIZONTALGRAMADDRESSSET, BusOp.writeData a,
       BusOp.writeCmd VERTICALGRAMADDRESSSET, BusOp.writeData b,
       BusOp.writeCmd WRITEDATATOGRAM] ++ l := by
    rw [hr, List.append_assoc, List.drop_left]
  have hc := count_eq_zero_of_all_isWriteData WRITEDATATOGRAM l hl
  have hg : afterGram ([BusOp.writeCmd HORIZONTALGRAMADDRESSSET, BusOp.writeData a,
       BusOp.writeCmd VERTICALGRAMADDRESSSET, BusOp.writeData b,
       BusOp.writeCmd WRITEDATATOGRAM] ++ l) = l := by
    have h1 : (BusOp.writeCmd HORIZONTALGRAMADDRESSSET != BusOp.writeCmd WRITEDATATOGRAM)
        = true := by decide
    have h2 : (BusOp.writeCmd VERTICALGRAMADDRESSSET != BusOp.writeCmd WRITEDATATOGRAM)
        = true := by decide
    have h3 : ∀ v : Nat, (BusOp.writeData v != BusOp.writeCmd WRITEDATATOGRAM) = true := by
      intro v; simp
    have h4 : (BusOp.writeCmd WRITEDATATOGRAM != BusOp.writeCmd WRITEDATATOGRAM)
        = false := by decide
    simp [afterGram, List.dropWhile, h1, h2, h3, h4]
  simp only [Option.map_some', hd, hg, hl]
  simp [List.count_cons, hc]

/-- C19: in the bus trace of each of `lcdDrawPixel`, `lcdDrawPixels` (any
`uint32_t` length, so in particular `n ≥ 1`), `lcdDrawHLine` and `lcdFillRGB`,
for all arguments and either orientation, the write-data-to-GRAM command
occurs exactly once and every transaction after it is a data write (each
function returning, given fuel for its loop). -/
theorem gram_command_once (fuel x y x0 x1 color n : Nat) (data : Nat → Nat) (s : Driver)
    (hn : n < 4294967296) (hfueln : n ≤ fuel) (hfuel : 76800 < fuel) :
    Option.map
      (fun r => ((r.trace.drop s.trace.length).count (BusOp.writeCmd WRITEDATATOGRAM),
        (afterGram (r.trace.drop s.trace.length)).all BusOp.isWriteData))
      (some (lcdDrawPixel x y color s)) = some (1, true) ∧
    Option.map
      (fun r => ((r.trace.drop s.trace.length).count (BusOp.writeCmd WRITEDATATOGRAM),
        (afterGram (r.trace.drop s.trace.length)).all BusOp.isWriteData))
      (lcdDrawPixels fuel x y data n s) = some (1, true) ∧
    Option.map
      (fun r => ((r.trace.drop s.trace.length).count (BusOp.writeCmd WRITEDATATOGRAM),
        (afterGram (r.trace.drop s.trace.length)).all BusOp.isWriteData))
      (lcdDrawHLine fuel x0 x1 y color s) = some (1, true) ∧
    Option.map
      (fun r => ((r.trace.drop s.trace.length).count (BusOp.writeCmd WRITEDATATOGRAM),
        (afterGram (r.trace.drop s.trace.length)).all BusOp.isWriteData))
      (lcdFillRGB fuel color s) = some (1, true) := by
  have hW := lcdGetWidth_cases s
  refine ⟨?_, ?_, ?_, ?_⟩
  · refine burst_gram_once s _ _ (ili9328SetCursor_al_ah s.lcdOrientation x y).1
      (ili9328SetCursor_al_ah s.lcdOrientation x y).2 [BusOp.writeData color] rfl rfl ?_
    simp [lcdDrawPixel, ili9328WriteData, ili9328WriteCmd, ili9328SetCursor_trace]
  · refine burst_gram_once s _ _ (ili9328SetCursor_al_ah s.lcdOrientation x y).1
      (ili9328SetCursor_al_ah s.lcdOrientation x y).2 _
      (all_isWriteData_map (List.range (max n 1)) data)
      (lcdDrawPixels_eq fuel x y data n s hn (by omega)) ?_
    simp [ili9328SetCursor_trace]
  · refine burst_gram_once s _ _
      (ili9328SetCursor_al_ah s.lcdOrientation (min (min x0 x1) (lcdGetWidth s - 1)) y).1
      (ili9328SetCursor_al_ah s.lcdOrientation (min (min x0 x1) (lcdGetWidth s - 1)) y).2
      (List.replicate
        (min (max x0 x1) (lcdGetWidth s - 1) - min (min x0 x1) (lcdGetWidth s - 1) + 1)
        (BusOp.writeData color))
      (all_isWriteData_replicate _ color)
      (lcdDrawHLine_eq fuel x0 x1 y color s (by omega)) ?_
    simp [ili9328SetCursor_trace]
  · exact burst_gram_once s _ _ 0 0 _ (all_isWriteData_replicate 76800 color)
      (lcdFillRGB_eq fuel color s hfuel) rfl

/-- Witness for C19 on the initial state, with a run of three pixels. -/
theorem gram_command_once_witness :
    3 < 4294967296 ∧ 3 ≤ 76801 ∧ 76800 < 76801 ∧
    (Option.map
      (fun r => ((r.trace.drop (initial zeroInput).trace.length).count
          (BusOp.writeCmd WRITEDATATOGRAM),
        (afterGram (r.trace.drop (initial zeroInput).trace.length)).all BusOp.isWriteData))
      (some (lcdDrawPixel 1 2 COLOR_RED (initial zeroInput))) = some (1, true) ∧
    Option.map
      (fun r => ((r.trace.drop (initial zeroInput).trace.length).count
          (BusOp.writeCmd WRITEDATATOGRAM),
        (afterGram (r.trace.drop (initial zeroInput).trace.length)).all BusOp.isWriteData))
      (lcdDrawPixels 76801 1 2 samplePixels 3 (initial zeroInput)) = some (1, true) ∧
    Option.map
      (fun r => ((r.trace.drop (initial zeroInput).trace.length).count
          (BusOp.writeCmd WRITEDATATOGRAM),
        (afterGram (r.trace.drop (initial zeroInput).trace.length)).all BusOp.isWriteData))
      (lcdDrawHLine 76801 300 10 2 COLOR_RED (initial zeroInput)) = some (1, true) ∧
    Option.map
      (fun r => ((r.trace.drop (initial zeroInput).trace.length).count
          (BusOp.writeCmd WRITEDATATOGRAM),
        (afterGram (r.trace.drop (initial zeroInput).trace.length)).all BusOp.isWriteData))
      (lcdFillRGB 76801 COLOR_RED (initial zeroInput)) = some (1, true)) :=
  ⟨by decide, by decide, by decide,
    gram_command_once 76801 1 2 300 10 COLOR_RED 3 samplePixels (initial zeroInput)
      (by decide) (by decide) (by decide)⟩

end ILI9328

/-! ## Bus primitives at pin level: bytes and strobes -/

namespace ILI9328.Pin

lemma and_0xFF (x : Nat) : x &&& 0xFF = x % 256 := by
  have h := Nat.and_pow_two_sub_one_eq_mod x 8
  simpa using h

lemma shiftLeft_8_or (a b : Nat) (hb : b < 256) : (a <<< 8) ||| b = a * 256 + b := by
  have h := Nat.mul_add_lt_is_or (i := 8) (b := b) (by simpa using hb) a
  rw [Nat.shiftLeft_eq, Nat.mul_comm a (2 ^ 8), ← h]

/-- The first byte put on the data lines: the high byte of a 16-bit value. -/
lemma high_byte_on_lines (d v : Nat) (hd : d ≤ 8) (hv : v < 65536) :
    ((v >>> (8 - d)) >>> d) &&& 0xFF = v >>> 8 := by
  rw [← Nat.shiftRight_add, Nat.sub_add_cancel hd, and_0xFF, Nat.shiftRight_eq_div_pow]
  omega

/-- The second byte put on the data lines: the low byte. -/
lemma low_byte_on_lines (d v : Nat) : ((v <<< d) >>> d) &&& 0xFF = v &&& 0xFF := by
  rw [Nat.shiftLeft_shiftRight]

/-- C17: for a 16-bit value `v` and a data-pin offset `d ≤ 8`, with the masked
data port passing bits `d .. d+7` of what is assigned to it, `ili9328WriteCmd(v)`
and `ili9328WriteData(v)` each start exactly two write-enable strobes, both with
chip-select low; the byte on the data lines is `v >> 8` at the first and
`v & 0xFF` at the second, and the two bytes reassemble to `v`.  The
command/data line is low at both strobes of `ili9328WriteCmd` and high at both
of `ili9328WriteData`; on return write-enable is high again (both strobes are
over), chip-select is high (deasserted) and no read strobe has occurred. -/
theorem ili9328WriteCmd_WriteData_strobes (d v : Nat) (p : Lines)
    (hd : d ≤ 8) (hv : v < 65536) :
    (ili9328WriteCmd d v p).writeStrobes =
      p.writeStrobes ++
        [{ CS := false, CD := false, byte := v >>> 8 },
         { CS := false, CD := false, byte := v &&& 0xFF }] ∧
    (ili9328WriteData d v p).writeStrobes =
      p.writeStrobes ++
        [{ CS := false, CD := true, byte := v >>> 8 },
         { CS := false, CD := true, byte := v &&& 0xFF }] ∧
    ((v >>> 8) <<< 8) ||| (v &&& 0xFF) = v ∧
    (ili9328WriteCmd d v p).CD = false ∧
    (ili9328WriteData d v p).CD = true ∧
    (ili9328WriteCmd d v p).WR = true ∧
    (ili9328WriteData d v p).WR = true ∧
    (ili9328WriteCmd d v p).CS = true ∧
    (ili9328WriteData d v p).CS = true ∧
    (ili9328WriteCmd d v p).readStrobes = p.readStrobes ∧
    (ili9328WriteData d v p).readStrobes = p.readStrobes := by
  have hhi := high_byte_on_lines d v hd hv
  have hlo := low_byte_on_lines d v
  have hv' : ((v >>> 8) <<< 8) ||| (v &&& 0xFF) = v := by
    rw [and_0xFF, shiftLeft_8_or _ _ (by omega), Nat.shiftRight_eq_div_pow]
    omega
  refine ⟨?_, ?_, hv', ?_, ?_, ?_, ?_, ?_, ?_, ?_, ?_⟩ <;>
    simp [ili9328WriteCmd, ili9328WriteData, CLR_CS_CD_SET_RD_WR, CLR_CS_SET_CD_RD_WR,
      SET_WR_CS, CLR_WR, SET_WR, SET_RD, SET_CS, CLR_CS, CLR_CD, SET_CD,
      assign_GPIO2DATA_DATA, hhi, hlo]

/-- Witness for C17 with `v = 0x1234` and offset 1 on idle lines. -/
theorem ili9328WriteCmd_WriteData_strobes_witness :
    1 ≤ 8 ∧ 0x1234 < 65536 ∧
    ((ili9328WriteCmd 1 0x1234 (idle zeroInput)).writeStrobes =
      (idle zeroInput).writeStrobes ++
        [{ CS := false, CD := false, byte := 0x1234 >>> 8 },
         { CS := false, CD := false, byte := 0x1234 &&& 0xFF }] ∧
    (ili9328WriteData 1 0x1234 (idle zeroInput)).writeStrobes =
      (idle zeroInput).writeStrobes ++
        [{ CS := false, CD := true, byte := 0x1234 >>> 8 },
         { CS := false, CD := true, byte := 0x1234 &&& 0xFF }] ∧
    ((0x1234 >>> 8) <<< 8) ||| (0x1234 &&& 0xFF) = 0x1234 ∧
    (ili9328WriteCmd 1 0x1234 (idle zeroInput)).CD = false ∧
    (ili9328WriteData 1 0x1234 (idle zeroInput)).CD = true ∧
    (ili9328WriteCmd 1 0x1234 (idle zeroInput)).WR = true ∧
    (ili9328WriteData 1 0x1234 (idle zeroInput)).WR = true ∧
    (ili9328WriteCmd 1 0x1234 (idle zeroInput)).CS = true ∧
    (ili9328WriteData 1 0x1234 (idle zeroInput)).CS = true ∧
    (ili9328WriteCmd 1 0x1234 (idle zeroInput)).readStrobes = (idle zeroInput).readStrobes ∧
    (ili9328WriteData 1 0x1234 (idle zeroInput)).readStrobes = (idle zeroInput).readStrobes) :=
  ⟨by decide, by decide,
    ili9328WriteCmd_WriteData_strobes 1 0x1234 (idle zeroInput) (by decide) (by decide)⟩

end ILI9328.Pin

/-! ## 32-bit timer: range of the microsecond delay -/

namespace Timer32

/-- C20: with a 72 MHz timer clock, `(CFG_CPU_CCLK/SCB_SYSAHBCLKDIV)/1000000 = 72`,
the match value `delayInUS * 72` that `timer32DelayUS` loads, computed in
`uint32_t`, is the exact product for every `delayInUS ≤ 59652323`, on either
timer; at `delayInUS = 59652324` the product is `2^32 + 32` and the register
receives 32.  So 59,652,323 = 0xFFFFFFFF / 72 is the largest delay, as the
comment in the source says. -/
theorem timer32DelayUS_match (CFG_CPU_CCLK SCB_SYSAHBCLKDIV delayInUS : Nat) (r : Regs)
    (hclk : (CFG_CPU_CCLK / SCB_SYSAHBCLKDIV) / 1000000 = 72)
    (hmax : delayInUS ≤ 59652323) :
    (timer32DelayUS CFG_CPU_CCLK SCB_SYSAHBCLKDIV 0 delayInUS r).TMR_TMR32B0MR0 =
      delayInUS * 72 ∧
    (timer32DelayUS CFG_CPU_CCLK SCB_SYSAHBCLKDIV 1 delayInUS r).TMR_TMR32B1MR0 =
      delayInUS * 72 ∧
    (timer32DelayUS CFG_CPU_CCLK SCB_SYSAHBCLKDIV 0 59652324 r).TMR_TMR32B0MR0 = 32 ∧
    (timer32DelayUS CFG_CPU_CCLK SCB_SYSAHBCLKDIV 1 59652324 r).TMR_TMR32B1MR0 = 32 ∧
    59652324 * 72 = 4294967296 + 32 ∧
    0xFFFFFFFF / 72 = 59652323 := by
  have h1 : delayInUS * 72 % 4294967296 = delayInUS * 72 := Nat.mod_eq_of_lt (by omega)
  refine ⟨?_, ?_, ?_, ?_, by norm_num, by norm_num⟩
  · simp only [timer32DelayUS, hclk, if_true, h1]
  · simp only [timer32DelayUS, hclk, h1]
    simp
  · simp only [timer32DelayUS, hclk, if_true]
  · simp only [timer32DelayUS, hclk]
    simp

/-- Witness for C20: a 72 MHz core clock divided by 1, and the largest delay. -/
theorem timer32DelayUS_match_witness :
    (72000000 / 1) / 1000000 = 72 ∧ 59652323 ≤ 59652323 ∧
    ((timer32DelayUS 72000000 1 0 59652323 ⟨1, 2, 3, 4⟩).TMR_TMR32B0MR0 = 59652323 * 72 ∧
    (timer32DelayUS 72000000 1 1 59652323 ⟨1, 2, 3, 4⟩).TMR_TMR32B1MR0 = 59652323 * 72 ∧
    (timer32DelayUS 72000000 1 0 59652324 ⟨1, 2, 3, 4⟩).TMR_TMR32B0MR0 = 32 ∧
    (timer32DelayUS 72000000 1 1 59652324 ⟨1, 2, 3, 4⟩).TMR_TMR32B1MR0 = 32 ∧
    59652324 * 72 = 4294967296 + 32 ∧
    0xFFFFFFFF / 72 = 59652323) :=
  ⟨by decide, by decide,
    timer32DelayUS_match 72000000 1 59652323 ⟨1, 2, 3, 4⟩ (by decide) (by decide)⟩

end Timer32

/-! ## Pixel runs of length zero, vertical lines from Portrait -/

namespace ILI9328

open lcdOrientation_t Command

/-- C21: for every `uint32_t` length `len` (and fuel for the passes),
`lcdDrawPixels` returns after the cursor writes, the write-data-to-GRAM command
and exactly `max len 1` data writes; with `len = 0` the body of the
`do ... while` still runs once, so one data write, of `data[0]`, is issued. -/
theorem lcdDrawPixels_len_zero (fuel x y : Nat) (data : Nat → Nat) (len : Nat) (s : Driver)
    (hlen : len < 4294967296) (hfuel : max len 1 ≤ fuel) :
    lcdDrawPixels fuel x y data len s =
      some { s with trace :=
        ((ili9328SetCursor x y s).trace ++ [BusOp.writeCmd WRITEDATATOGRAM] ++
          (List.range (max len 1)).map (fun k => BusOp.writeData (data k))) } ∧
    ((List.range (max len 1)).map (fun k => BusOp.writeData (data k))).length = max len 1 ∧
    lcdDrawPixels fuel x y data 0 s =
      some { s with trace :=
        ((ili9328SetCursor x y s).trace ++
          [BusOp.writeCmd WRITEDATATOGRAM, BusOp.writeData (data 0)]) } := by
  refine ⟨lcdDrawPixels_eq fuel x y data len s hlen hfuel, by simp, ?_⟩
  have h1 : List.map (fun k => BusOp.writeData (data k)) (List.range 1) =
      [BusOp.writeData (data 0)] := rfl
  rw [lcdDrawPixels_eq fuel x y data 0 s (by omega) (by omega)]
  simp [h1]

/-- Witness for C21: length 0 at (1, 2) on the initial state, fuel for one
pass. -/
theorem lcdDrawPixels_len_zero_witness :
    0 < 4294967296 ∧ max 0 1 ≤ 1 ∧
    (lcdDrawPixels 1 1 2 samplePixels 0 (initial zeroInput) =
      some { initial zeroInput with trace :=
        ((ili9328SetCursor 1 2 (initial zeroInput)).trace ++
          [BusOp.writeCmd WRITEDATATOGRAM] ++
          (List.range (max 0 1)).map (fun k => BusOp.writeData (samplePixels k))) } ∧
    ((List.range (max 0 1)).map (fun k => BusOp.writeData (samplePixels k))).length = max 0 1 ∧
    lcdDrawPixels 1 1 2 samplePixels 0 (initial zeroInput) =
      some { initial zeroInput with trace :=
        ((ili9328SetCursor 1 2 (initial zeroInput)).trace ++
          [BusOp.writeCmd WRITEDATATOGRAM, BusOp.writeData (samplePixels 0)]) }) :=
  ⟨by decide, by decide,
    lcdDrawPixels_len_zero 1 1 2 samplePixels 0 (initial zeroInput) (by decide) (by decide)⟩

/-- C22: from Portrait orientation, for `x < 240` and any `y0`, `y1`, `color`
(and fuel for the span's loop), `lcdDrawVLine(x, y0, y1, color)` returns with
Portrait stored again, and what it appends to the bus trace is: the trace of
`lcdSetOrientation(LANDSCAPE)`; the burst with the horizontal GRAM address
register set to `239 - x` and the vertical one to `a`, the write-data-to-GRAM
command and exactly `b - a + 1` data writes of `color`, where
`a = min(min(y0,y1), 319)` and `b = min(max(y0,y1), 319)`; and the trace of
`lcdSetOrientation(PORTRAIT)`, whose last two register writes leave the cursor
at (0, 0). -/
theorem lcdDrawVLine_portrait (fuel x y0 y1 color : Nat) (s : Driver)
    (hx : x < 240) (hfuel : 320 < fuel) :
    lcdDrawVLine fuel x y0 y1 color { s with lcdOrientation := LCD_ORIENTATION_PORTRAIT } =
      some { s with
        lcdOrientation := LCD_ORIENTATION_PORTRAIT
        trace :=
          (s.trace ++
            [BusOp.writeCmd ENTRYMODE, BusOp.writeData 0x1028,
             BusOp.writeCmd DRIVEROUTPUTCONTROL1, BusOp.writeData 0x0000,
             BusOp.writeCmd HORIZONTALGRAMADDRESSSET, BusOp.writeData 0,
             BusOp.writeCmd VERTICALGRAMADDRESSSET, BusOp.writeData 0] ++
            [BusOp.writeCmd HORIZONTALGRAMADDRESSSET, BusOp.writeData (239 - x),
             BusOp.writeCmd VERTICALGRAMADDRESSSET, BusOp.writeData (min (min y0 y1) 319),
             BusOp.writeCmd WRITEDATATOGRAM] ++
            List.replicate (min (max y0 y1) 319 - min (min y0 y1) 319 + 1)
              (BusOp.writeData color) ++
            [BusOp.writeCmd ENTRYMODE, BusOp.writeData 0x1030,
             BusOp.writeCmd DRIVEROUTPUTCONTROL1, BusOp.writeData 0x0100,
             BusOp.writeCmd HORIZONTALGRAMADDRESSSET, BusOp.writeData 0,
             BusOp.writeCmd VERTICALGRAMADDRESSSET, BusOp.writeData 0]) } ∧
    (lcdSetOrientation LCD_ORIENTATION_LANDSCAPE
        { s with lcdOrientation := LCD_ORIENTATION_PORTRAIT }).trace =
      s.trace ++
        [BusOp.writeCmd ENTRYMODE, BusOp.writeData 0x1028,
         BusOp.writeCmd DRIVEROUTPUTCONTROL1, BusOp.writeData 0x0000,
         BusOp.writeCmd HORIZONTALGRAMADDRESSSET, BusOp.writeData 0,
         BusOp.writeCmd VERTICALGRAMADDRESSSET, BusOp.writeData 0] ∧
    (∀ r : Driver, (lcdSetOrientation LCD_ORIENTATION_PORTRAIT r).trace =
      r.trace ++
        [BusOp.writeCmd ENTRYMODE, BusOp.writeData 0x1030,
         BusOp.writeCmd DRIVEROUTPUTCONTROL1, BusOp.writeData 0x0100,
         BusOp.writeCmd HORIZONTALGRAMADDRESSSET, BusOp.writeData 0,
         BusOp.writeCmd VERTICALGRAMADDRESSSET, BusOp.writeData 0]) ∧
    min (min y0 y1) 319 ≤ min (max y0 y1) 319 := by
  refine ⟨?_, ?_, ?_, by omega⟩
  · have hy : toUInt16 ((240 : Int) - ((x : Int) + 1)) = 239 - x := by
      unfold toUInt16
      omega
    rw [lcdDrawVLine_eq fuel x y0 y1 color _ _ hfuel rfl]
    simp [lcdSetOrientation_eq, lcdDrawVLine_switched, ili9328SetCursor_trace,
      ili9328SetCursor_al_ah, lcdGetWidth, lcdGetHeight, ili9328Properties, hy]
  · rw [lcdSetOrientation_eq]
  · intro r
    rw [lcdSetOrientation_eq]

/-- Witness for C22: `lcdDrawVLine(5, 300, 10, RED)` on the initial state. -/
theorem lcdDrawVLine_portrait_witness :
    5 < 240 ∧ 320 < 321 ∧
    (lcdDrawVLine 321 5 300 10 COLOR_RED
        { initial zeroInput with lcdOrientation := LCD_ORIENTATION_PORTRAIT } =
      some { initial zeroInput with
        lcdOrientation := LCD_ORIENTATION_PORTRAIT
        trace :=
          ((initial zeroInput).trace ++
            [BusOp.writeCmd ENTRYMODE, BusOp.writeData 0x1028,
             BusOp.writeCmd DRIVEROUTPUTCONTROL1, BusOp.writeData 0x0000,
             BusOp.writeCmd HORIZONTALGRAMADDRESSSET, BusOp.writeData 0,
             BusOp.writeCmd VERTICALGRAMADDRESSSET, BusOp.writeData 0] ++
            [BusOp.writeCmd HORIZONTALGRAMADDRESSSET, BusOp.writeData (239 - 5),
             BusOp.writeCmd VERTICALGRAMADDRESSSET, BusOp.writeData (min (min 300 10) 319),
             BusOp.writeCmd WRITEDATATOGRAM] ++
            List.replicate (min (max 300 10) 319 - min (min 300 10) 319 + 1)
              (BusOp.writeData COLOR_RED) ++
            [BusOp.writeCmd ENTRYMODE, BusOp.writeData 0x1030,
             BusOp.writeCmd DRIVEROUTPUTCONTROL1, BusOp.writeData 0x0100,
             BusOp.writeCmd HORIZONTALGRAMADDRESSSET, BusOp.writeData 0,
             BusOp.writeCmd VERTICALGRAMADDRESSSET, BusOp.writeData 0]) } ∧
    (lcdSetOrientation LCD_ORIENTATION_LANDSCAPE
        { initial zeroInput with lcdOrientation := LCD_ORIENTATION_PORTRAIT }).trace =
      (initial zeroInput).trace ++
        [BusOp.writeCmd ENTRYMODE, BusOp.writeData 0x1028,
         BusOp.writeCmd DRIVEROUTPUTCONTROL1, BusOp.writeData 0x0000,
         BusOp.writeCmd HORIZONTALGRAMADDRESSSET, BusOp.writeData 0,
         BusOp.writeCmd VERTICALGRAMADDRESSSET, BusOp.writeData 0] ∧
    (∀ r : Driver, (lcdSetOrientation LCD_ORIENTATION_PORTRAIT r).trace =
      r.trace ++
        [BusOp.writeCmd ENTRYMODE, BusOp.writeData 0x1030,
         BusOp.writeCmd DRIVEROUTPUTCONTROL1, BusOp.writeData 0x0100,
         BusOp.writeCmd HORIZONTALGRAMADDRESSSET, BusOp.writeData 0,
         BusOp.writeCmd VERTICALGRAMADDRESSSET, BusOp.writeData 0]) ∧
    min (min 300 10) 319 ≤ min (max 300 10) 319) :=
  ⟨by decide, by decide,
    lcdDrawVLine_portrait 321 5 300 10 COLOR_RED (initial zeroInput) (by decide) (by decide)⟩

end ILI9328
